import Mathlib

/-!
Shallow embedding of the OpenContrail neutron loadbalancer driver
(neutron_plugin_contrail/plugins/opencontrail/loadbalancer/driver.py).

The remote VNC object store is modelled as a record of lookup maps; every
remote API call made by the driver is recorded in an event trace, and the
handful of mutating calls (service-instance create, update, delete, pool
update) also transform the store.  Python exceptions are modelled with an
explicit error type threaded through an Except-style result.  The two
Python-level runtime faults present in the source (an undefined name in
an except branch, and a call of a method that lists do not have) are
modelled as distinct error values, so that the embedded code fails exactly
where the source would.
-/

namespace ContrailLB

/-- Errors that the driver code can raise.  NoIdError and RefsExistError
come from the remote client library; BadRequest is the neutron exception
the driver raises deliberately; nameError, attributeError and indexError
model the corresponding Python runtime faults. -/
inductive Err where
  | noIdError : Err
  | refsExistError : Err
  | badRequest : String → String → Err
  | nameError : String → Err
  | attributeError : String → Err
  | indexError : Err
deriving DecidableEq, Repr

/-- Properties record of a service instance.  In the source this is the
vnc_api ServiceInstanceType object; a fresh one has every field None. -/
structure ServiceInstanceType where
  right_virtual_network : Option String
  right_ip_address : Option String
  left_virtual_network : Option String
deriving DecidableEq, Repr

/-- ServiceInstanceType() with all fields unset. -/
def ServiceInstanceType.empty : ServiceInstanceType :=
  { right_virtual_network := none, right_ip_address := none,
    left_virtual_network := none }

/-- A uuid-carrying reference entry, as it appears in ref lists returned
by the vnc_api accessors. -/
structure UuidRef where
  uuid : String
deriving DecidableEq, Repr

/-- A virtual-network reference on a virtual machine interface: carries
the qualified name of the network (the ref entry key named to in the
source, renamed here because to is reserved) and its uuid. -/
structure VnetRef where
  ref_to : List String
  uuid : String
deriving DecidableEq, Repr

/-- The slice of a virtual-ip object the driver reads. -/
structure VirtualIp where
  virtual_machine_interface_refs : Option (List UuidRef)
deriving DecidableEq, Repr

/-- The slice of a virtual-machine-interface object the driver reads. -/
structure VirtualMachineInterface where
  virtual_network_refs : Option (List VnetRef)
  instance_ip_back_refs : Option (List UuidRef)
deriving DecidableEq, Repr

/-- The slice of an instance-ip object the driver reads; the address can
itself be unset. -/
structure InstanceIp where
  instance_ip_address : Option String
deriving DecidableEq, Repr

/-- LoadbalancerPoolType attributes the driver reads. -/
structure LoadbalancerPoolType where
  subnet_id : String
deriving DecidableEq, Repr

/-- The slice of a loadbalancer-pool object the driver reads and writes.
The uuid field is the key under which pool updates are stored. -/
structure LoadbalancerPool where
  uuid : String
  fq_name : List String
  loadbalancer_pool_properties : LoadbalancerPoolType
  service_instance_refs : Option (List UuidRef)
deriving DecidableEq, Repr

/-- The slice of a virtual-network object the driver reads. -/
structure VirtualNetwork where
  fq_name : List String
deriving DecidableEq, Repr

/-- The slice of a project object the driver reads. -/
structure Project where
  fq_name : List String
deriving DecidableEq, Repr

/-- The slice of a service-template object the driver uses: it is only
held and referenced, never inspected. -/
structure ServiceTemplate where
  fq_name : List String
deriving DecidableEq, Repr

/-- A service-instance object.  parent_type and the template reference are
set on creation; properties are the three-field record above. -/
structure ServiceInstance where
  fq_name : List String
  uuid : String
  parent_type : String
  service_instance_properties : ServiceInstanceType
  service_template_ref : Option (List String)
deriving DecidableEq, Repr

/-- Trace entry for each remote API call the driver makes.  Reads record
their key; mutations record the written object.  A delete that removed
the object is si_delete; a delete call that raised (not-found or
references-exist) is si_delete_noop. -/
inductive ApiCall where
  | template_read : List String → ApiCall
  | pool_read : String → ApiCall
  | vip_read : String → ApiCall
  | vmi_read : String → ApiCall
  | iip_read : String → ApiCall
  | vnet_read : String → ApiCall
  | project_read : String → ApiCall
  | si_read : List String → ApiCall
  | si_create : ServiceInstance → ApiCall
  | si_update : ServiceInstance → ApiCall
  | si_delete : List String → ApiCall
  | si_delete_noop : List String → ApiCall
  | pool_update : LoadbalancerPool → ApiCall
deriving DecidableEq, Repr

/-- Calls that mutate the remote store. -/
def ApiCall.isWrite : ApiCall → Bool
  | .si_create _ => true
  | .si_update _ => true
  | .si_delete _ => true
  | .pool_update _ => true
  | _ => false

/-- Service-instance update calls. -/
def ApiCall.isSiUpdate : ApiCall → Bool
  | .si_update _ => true
  | _ => false

/-- Service-instance create calls. -/
def ApiCall.isSiCreate : ApiCall → Bool
  | .si_create _ => true
  | _ => false

/-- Pool update calls. -/
def ApiCall.isPoolUpdate : ApiCall → Bool
  | .pool_update _ => true
  | _ => false

/-- Service-template reads. -/
def ApiCall.isTemplateRead : ApiCall → Bool
  | .template_read _ => true
  | _ => false

/-- A delete call (successful or raising) aimed at the given qualified
name. -/
def ApiCall.isDeleteAttemptAt (fq : List String) : ApiCall → Bool
  | .si_delete f => f = fq
  | .si_delete_noop f => f = fq
  | _ => false

/-- The remote object store, as the driver observes it.  Reads are keyed
by uuid except for service templates and service instances, which the
driver addresses by qualified name.  The subnet_network field is
modelled from the spec: the helper utils.get_subnet_network_id, whose
module is not among the sources, resolves the owning network id of the
pool backend subnet, so it is carried as an abstract association from
subnet id to network id.  si_refs_exist marks service instances whose
deletion raises RefsExistError.  next_uuid is the uuid the store
assigns to the next created service instance. -/
structure ApiState where
  pools : String → Option LoadbalancerPool
  vips : String → Option VirtualIp
  vmis : String → Option VirtualMachineInterface
  iips : String → Option InstanceIp
  vnets : String → Option VirtualNetwork
  projects : String → Option Project
  template : Option ServiceTemplate
  service_instances : List String → Option ServiceInstance
  si_refs_exist : List String → Bool
  subnet_network : String → String
  next_uuid : String

/-- Driver-side state: the remote store, the cached service template
(self._lb_template) and the trace of remote calls made so far. -/
structure DriverState where
  api : ApiState
  lb_template : Option ServiceTemplate
  events : List ApiCall

/-- Append a trace entry. -/
def DriverState.log (s : DriverState) (e : ApiCall) : DriverState :=
  { s with events := s.events ++ [e] }

/-- LOADBALANCER_SERVICE_TEMPLATE from the source. -/
def LOADBALANCER_SERVICE_TEMPLATE : List String :=
  ["default-domain", "haproxy-loadbalancer-template"]

/-- Python indexing xs[0]: raises IndexError on an empty list. -/
def pyIndex0 {α : Type} : List α → Except Err α
  | [] => .error .indexError
  | x :: _ => .ok x

/-- Python attribute access receiver.join(sep) where the receiver is a
list.  Python lists have no join method (join is a str method), so this
raises AttributeError regardless of the arguments.  The source calls it
on vnet.get_fq_name(), which is a list of strings. -/
def pyListJoin (_receiver : List String) (_sep : String) : Except Err String :=
  .error (.attributeError "list object has no attribute join")

/-- Remote read self._api.service_template_read(fq_name=...). -/
def service_template_read (fq : List String) (s : DriverState) :
    Except Err ServiceTemplate × DriverState :=
  let s1 := s.log (.template_read fq)
  if fq = LOADBALANCER_SERVICE_TEMPLATE then
    match s.api.template with
    | some t => (.ok t, s1)
    | none => (.error .noIdError, s1)
  else (.error .noIdError, s1)

/-- Remote read self._api.loadbalancer_pool_read(id=...). -/
def loadbalancer_pool_read (id : String) (s : DriverState) :
    Except Err LoadbalancerPool × DriverState :=
  let s1 := s.log (.pool_read id)
  match s.api.pools id with
  | some p => (.ok p, s1)
  | none => (.error .noIdError, s1)

/-- Remote read self._api.virtual_ip_read(id=...). -/
def virtual_ip_read (id : String) (s : DriverState) :
    Except Err VirtualIp × DriverState :=
  let s1 := s.log (.vip_read id)
  match s.api.vips id with
  | some v => (.ok v, s1)
  | none => (.error .noIdError, s1)

/-- Remote read self._api.virtual_machine_interface_read(id=...). -/
def virtual_machine_interface_read (id : String) (s : DriverState) :
    Except Err VirtualMachineInterface × DriverState :=
  let s1 := s.log (.vmi_read id)
  match s.api.vmis id with
  | some v => (.ok v, s1)
  | none => (.error .noIdError, s1)

/-- Remote read self._api.instance_ip_read(uuid). -/
def instance_ip_read (id : String) (s : DriverState) :
    Except Err InstanceIp × DriverState :=
  let s1 := s.log (.iip_read id)
  match s.api.iips id with
  | some v => (.ok v, s1)
  | none => (.error .noIdError, s1)

/-- Remote read self._api.virtual_network_read(id=...). -/
def virtual_network_read (id : String) (s : DriverState) :
    Except Err VirtualNetwork × DriverState :=
  let s1 := s.log (.vnet_read id)
  match s.api.vnets id with
  | some v => (.ok v, s1)
  | none => (.error .noIdError, s1)

/-- Remote read self._api.project_read(id=...). -/
def project_read (id : String) (s : DriverState) :
    Except Err Project × DriverState :=
  let s1 := s.log (.project_read id)
  match s.api.projects id with
  | some v => (.ok v, s1)
  | none => (.error .noIdError, s1)

/-- Remote read self._api.service_instance_read(fq_name=...). -/
def service_instance_read (fq : List String) (s : DriverState) :
    Except Err ServiceInstance × DriverState :=
  let s1 := s.log (.si_read fq)
  match s.api.service_instances fq with
  | some v => (.ok v, s1)
  | none => (.error .noIdError, s1)

/-- Remote delete self._api.service_instance_delete(fq_name=...):
raises NoIdError when the instance is absent, RefsExistError when other
resources still reference it, and removes it otherwise. -/
def service_instance_delete (fq : List String) (s : DriverState) :
    Except Err Unit × DriverState :=
  match s.api.service_instances fq with
  | none => (.error .noIdError, s.log (.si_delete_noop fq))
  | some _ =>
    if s.api.si_refs_exist fq then
      (.error .refsExistError, s.log (.si_delete_noop fq))
    else
      (.ok (),
        { s with
          api := { s.api with
            service_instances :=
              fun f => if f = fq then none else s.api.service_instances f },
          events := s.events ++ [.si_delete fq] })

/-- Remote create self._api.service_instance_create(si): the store
assigns the new uuid, which the client writes back onto the object; the
created object is returned.  A create at an occupied qualified name
raises RefsExistError. -/
def service_instance_create (si : ServiceInstance) (s : DriverState) :
    Except Err ServiceInstance × DriverState :=
  match s.api.service_instances si.fq_name with
  | some _ => (.error .refsExistError, s.log (.si_create si))
  | none =>
    let si2 := { si with uuid := s.api.next_uuid }
    (.ok si2,
      { s with
        api := { s.api with
          service_instances :=
            fun f => if f = si.fq_name then some si2
                     else s.api.service_instances f },
        events := s.events ++ [.si_create si2] })

/-- Remote update self._api.service_instance_update(si). -/
def service_instance_update (si : ServiceInstance) (s : DriverState) :
    Except Err Unit × DriverState :=
  (.ok (),
    { s with
      api := { s.api with
        service_instances :=
          fun f => if f = si.fq_name then some si
                   else s.api.service_instances f },
      events := s.events ++ [.si_update si] })

/-- Remote update self._api.loadbalancer_pool_update(pool), stored under
the pool uuid. -/
def loadbalancer_pool_update (p : LoadbalancerPool) (s : DriverState) :
    Except Err Unit × DriverState :=
  (.ok (),
    { s with
      api := { s.api with
        pools := fun i => if i = p.uuid then some p else s.api.pools i },
      events := s.events ++ [.pool_update p] })

/-- pool.set_service_instance(si_obj): replaces the pool reference list
with the single reference to the given instance. -/
def LoadbalancerPool.set_service_instance
    (p : LoadbalancerPool) (si : ServiceInstance) : LoadbalancerPool :=
  { p with service_instance_refs := some [{ uuid := si.uuid }] }

/-- OpencontrailLoadbalancerDriver._get_template.  When the template is
not cached it is read remotely; on NoIdError the source builds the
message with the name pool_id, which is not bound in this method, so
evaluating the except branch raises NameError before the intended
BadRequest can be raised. -/
def _get_template (s : DriverState) : Except Err Unit × DriverState :=
  match s.lb_template with
  | some _ => (.ok (), s)
  | none =>
    match service_template_read LOADBALANCER_SERVICE_TEMPLATE s with
    | (.ok tmpl, s1) => (.ok (), { s1 with lb_template := some tmpl })
    | (.error .noIdError, s1) => (.error (.nameError "pool_id"), s1)
    | (.error e, s1) => (.error e, s1)

/-- OpencontrailLoadbalancerDriver._get_virtual_ip_interface: None when
the vip has no interface reference or the referenced interface is gone
(the NoIdError is logged and absorbed). -/
def _get_virtual_ip_interface (vip : VirtualIp) (s : DriverState) :
    Except Err (Option VirtualMachineInterface) × DriverState :=
  match vip.virtual_machine_interface_refs with
  | none => (.ok none, s)
  | some vmi_list =>
    match pyIndex0 vmi_list with
    | .error e => (.error e, s)
    | .ok r =>
      match virtual_machine_interface_read r.uuid s with
      | (.ok vmi, s1) => (.ok (some vmi), s1)
      | (.error .noIdError, s1) => (.ok none, s1)
      | (.error e, s1) => (.error e, s1)

/-- OpencontrailLoadbalancerDriver._get_interface_address: None when the
interface has no instance-ip back references or the referenced
instance-ip is gone (logged and absorbed); otherwise the address field,
which can itself be unset. -/
def _get_interface_address (vmi : VirtualMachineInterface)
    (s : DriverState) : Except Err (Option String) × DriverState :=
  match vmi.instance_ip_back_refs with
  | none => (.ok none, s)
  | some ip_refs =>
    match pyIndex0 ip_refs with
    | .error e => (.error e, s)
    | .ok r =>
      match instance_ip_read r.uuid s with
      | (.ok iip, s1) => (.ok iip.instance_ip_address, s1)
      | (.error .noIdError, s1) => (.ok none, s1)
      | (.error e, s1) => (.error e, s1)

/-- OpencontrailLoadbalancerDriver._calculate_instance_properties.  The
result is None (no configuration) when the interface, its network or its
address cannot be resolved, or when the backend network read fails; when
the backend network differs from the vip-side network the source then
evaluates vnet.get_fq_name().join(":"), calling join on a list, which
raises AttributeError. -/
def _calculate_instance_properties (pool : LoadbalancerPool)
    (vip : VirtualIp) (s : DriverState) :
    Except Err (Option ServiceInstanceType) × DriverState :=
  match _get_virtual_ip_interface vip s with
  | (.error e, s1) => (.error e, s1)
  | (.ok none, s1) => (.ok none, s1)
  | (.ok (some vmi), s1) =>
    match vmi.virtual_network_refs with
    | none => (.ok none, s1)
    | some vnet_refs =>
      match pyIndex0 vnet_refs with
      | .error e => (.error e, s1)
      | .ok vr =>
        let right_vn := String.intercalate ":" vr.ref_to
        match _get_interface_address vmi s1 with
        | (.error e, s2) => (.error e, s2)
        | (.ok none, s2) => (.ok none, s2)
        | (.ok (some addr), s2) =>
          let backnet_id :=
            s2.api.subnet_network pool.loadbalancer_pool_properties.subnet_id
          if backnet_id ≠ vr.uuid then
            match virtual_network_read backnet_id s2 with
            | (.error .noIdError, s3) => (.ok none, s3)
            | (.error e, s3) => (.error e, s3)
            | (.ok vnet, s3) =>
              match pyListJoin vnet.fq_name ":" with
              | .error e => (.error e, s3)
              | .ok left_vn =>
                (.ok (some { right_virtual_network := some right_vn,
                             right_ip_address := some addr,
                             left_virtual_network := some left_vn }), s3)
          else
            (.ok (some { right_virtual_network := some right_vn,
                         right_ip_address := some addr,
                         left_virtual_network := none }), s2)

/-- OpencontrailLoadbalancerDriver._service_instance_update_props:
compares the three property fields, installs the freshly computed record
on the object unconditionally, and reports whether any field differed. -/
def _service_instance_update_props (si_obj : ServiceInstance)
    (nprops : ServiceInstanceType) : ServiceInstance × Bool :=
  let current := si_obj.service_instance_properties
  let update :=
    decide (current.right_virtual_network ≠ nprops.right_virtual_network) ||
    decide (current.right_ip_address ≠ nprops.right_ip_address) ||
    decide (current.left_virtual_network ≠ nprops.left_virtual_network)
  ({ si_obj with service_instance_properties := nprops }, update)

/-- The final step of _update_loadbalancer_instance: compare the pool
reference against the resolved instance and push a pool update when it
is missing or stale. -/
def _update_pool_ref (pool : LoadbalancerPool) (si_obj : ServiceInstance)
    (s : DriverState) : Except Err Unit × DriverState :=
  match pool.service_instance_refs with
  | none => loadbalancer_pool_update (pool.set_service_instance si_obj) s
  | some refs =>
    match pyIndex0 refs with
    | .error e => (.error e, s)
    | .ok r =>
      if r.uuid ≠ si_obj.uuid then
        loadbalancer_pool_update (pool.set_service_instance si_obj) s
      else
        (.ok (), s)

/-- The tail of _update_loadbalancer_instance once properties have been
computed: ensure the template is cached, then update the existing
service instance (when any property field drifted) or create a fresh
one, and finally refresh the pool reference. -/
def _reconcile_instance (fq_name : List String)
    (props : ServiceInstanceType) (pool : LoadbalancerPool)
    (s : DriverState) : Except Err Unit × DriverState :=
  match _get_template s with
  | (.error e, s4) => (.error e, s4)
  | (.ok _, s4) =>
    match service_instance_read fq_name s4 with
    | (.ok si_obj, s5) =>
      let (si2, update) := _service_instance_update_props si_obj props
      match (if update then service_instance_update si2 s5
             else (.ok (), s5)) with
      | (.error e, s6) => (.error e, s6)
      | (.ok _, s6) => _update_pool_ref pool si2 s6
    | (.error .noIdError, s5) =>
      let si_new : ServiceInstance :=
        { fq_name := fq_name, uuid := "",
          parent_type := "project",
          service_instance_properties := props,
          service_template_ref := some LOADBALANCER_SERVICE_TEMPLATE }
      match service_instance_create si_new s5 with
      | (.error e, s6) => (.error e, s6)
      | (.ok si_obj, s6) => _update_pool_ref pool si_obj s6
    | (.error e, s5) => (.error e, s5)

/-- OpencontrailLoadbalancerDriver._update_loadbalancer_instance. -/
def _update_loadbalancer_instance (pool_id vip_id : String)
    (s : DriverState) : Except Err Unit × DriverState :=
  match loadbalancer_pool_read pool_id s with
  | (.error .noIdError, s1) =>
    (.error (.badRequest "pool" ("Unable to retrieve pool " ++ pool_id)), s1)
  | (.error e, s1) => (.error e, s1)
  | (.ok pool, s1) =>
    match virtual_ip_read vip_id s1 with
    | (.error .noIdError, s2) =>
      (.error (.badRequest "vip"
        ("Unable to retrieve virtual-ip " ++ vip_id)), s2)
    | (.error e, s2) => (.error e, s2)
    | (.ok vip, s2) =>
      let fq_name := pool.fq_name.dropLast ++ [pool_id]
      match _calculate_instance_properties pool vip s2 with
      | (.error e, s3) => (.error e, s3)
      | (.ok none, s3) =>
        match service_instance_delete fq_name s3 with
        | (.ok _, s4) => (.ok (), s4)
        | (.error .refsExistError, s4) => (.ok (), s4)
        | (.error e, s4) => (.error e, s4)
      | (.ok (some props), s3) =>
        _reconcile_instance fq_name props pool s3

/-- OpencontrailLoadbalancerDriver._clear_loadbalancer_instance: a
missing project is logged and absorbed; a delete failing with
RefsExistError is logged and absorbed. -/
def _clear_loadbalancer_instance (tenant_id pool_id : String)
    (s : DriverState) : Except Err Unit × DriverState :=
  match project_read tenant_id s with
  | (.error .noIdError, s1) => (.ok (), s1)
  | (.error e, s1) => (.error e, s1)
  | (.ok project, s1) =>
    let fq_name := project.fq_name ++ [pool_id]
    match service_instance_delete fq_name s1 with
    | (.ok _, s2) => (.ok (), s2)
    | (.error .refsExistError, s2) => (.ok (), s2)
    | (.error e, s2) => (.error e, s2)

/-- The vip dictionary fields the handlers read.  An unset relation is
modelled by the empty string, which is falsy in the source conditional. -/
structure VipDict where
  id : String
  pool_id : String
  tenant_id : String
deriving DecidableEq, Repr

/-- The pool dictionary fields the handlers read. -/
structure PoolDict where
  id : String
  vip_id : String
  tenant_id : String
deriving DecidableEq, Repr

/-- OpencontrailLoadbalancerDriver.create_vip: loads the template first,
then reconciles only when the vip has a pool. -/
def create_vip (vip : VipDict) (s : DriverState) :
    Except Err Unit × DriverState :=
  match _get_template s with
  | (.error e, s1) => (.error e, s1)
  | (.ok _, s1) =>
    if vip.pool_id ≠ "" then
      _update_loadbalancer_instance vip.pool_id vip.id s1
    else
      (.ok (), s1)

/-- OpencontrailLoadbalancerDriver.create_pool: loads the template first,
then reconciles only when the pool has a vip. -/
def create_pool (pool : PoolDict) (s : DriverState) :
    Except Err Unit × DriverState :=
  match _get_template s with
  | (.error e, s1) => (.error e, s1)
  | (.ok _, s1) =>
    if pool.vip_id ≠ "" then
      _update_loadbalancer_instance pool.id pool.vip_id s1
    else
      (.ok (), s1)

/-- Remote writes among a trace. -/
def writesOf (es : List ApiCall) : List ApiCall :=
  es.filter ApiCall.isWrite

/-!
Pure characterizations of the read-only phases.  The functions below
restate the value computed by _get_interface_address and
_calculate_instance_properties, and the list of reads they perform, as
plain functions of the store; the run lemmas proved further down show
the embedded (state-threading) definitions equal to them.  They exist
only to keep the later proofs compositional.
-/

/-- Value computed by _get_interface_address as a function of the store. -/
def addrF (api : ApiState) (vmi : VirtualMachineInterface) :
    Except Err (Option String) :=
  match vmi.instance_ip_back_refs with
  | none => .ok none
  | some [] => .error .indexError
  | some (r :: _) =>
    match api.iips r.uuid with
    | none => .ok none
    | some iip => .ok iip.instance_ip_address

/-- Reads performed by _get_interface_address. -/
def addrTraceF (vmi : VirtualMachineInterface) : List ApiCall :=
  match vmi.instance_ip_back_refs with
  | none => []
  | some [] => []
  | some (r :: _) => [.iip_read r.uuid]

/-- Value computed by _calculate_instance_properties as a function of
the store. -/
def calcF (api : ApiState) (pool : LoadbalancerPool) (vip : VirtualIp) :
    Except Err (Option ServiceInstanceType) :=
  match vip.virtual_machine_interface_refs with
  | none => .ok none
  | some [] => .error .indexError
  | some (r :: _) =>
    match api.vmis r.uuid with
    | none => .ok none
    | some vmi =>
      match vmi.virtual_network_refs with
      | none => .ok none
      | some [] => .error .indexError
      | some (vr :: _) =>
        match addrF api vmi with
        | .error e => .error e
        | .ok none => .ok none
        | .ok (some addr) =>
          let backnet_id :=
            api.subnet_network pool.loadbalancer_pool_properties.subnet_id
          if backnet_id ≠ vr.uuid then
            match api.vnets backnet_id with
            | none => .ok none
            | some _ =>
              .error (.attributeError "list object has no attribute join")
          else
            .ok (some { right_virtual_network :=
                          some (String.intercalate ":" vr.ref_to),
                        right_ip_address := some addr,
                        left_virtual_network := none })

/-- Reads performed by _calculate_instance_properties. -/
def calcTraceF (api : ApiState) (pool : LoadbalancerPool)
    (vip : VirtualIp) : List ApiCall :=
  match vip.virtual_machine_interface_refs with
  | none => []
  | some [] => []
  | some (r :: _) =>
    match api.vmis r.uuid with
    | none => [.vmi_read r.uuid]
    | some vmi =>
      .vmi_read r.uuid ::
      (match vmi.virtual_network_refs with
       | none => []
       | some [] => []
       | some (vr :: _) =>
         addrTraceF vmi ++
         (match addrF api vmi with
          | .error _ => []
          | .ok none => []
          | .ok (some _) =>
            let backnet_id :=
              api.subnet_network pool.loadbalancer_pool_properties.subnet_id
            if backnet_id ≠ vr.uuid then [.vnet_read backnet_id] else []))

/-- Pure read calls: the trace entries that never mutate the store and
are neither template reads nor delete calls. -/
def ApiCall.isPlainRead : ApiCall → Bool
  | .pool_read _ => true
  | .vip_read _ => true
  | .vmi_read _ => true
  | .iip_read _ => true
  | .vnet_read _ => true
  | .project_read _ => true
  | .si_read _ => true
  | _ => false

/-- Any service-instance delete call, successful or raising. -/
def ApiCall.isDeleteCall : ApiCall → Bool
  | .si_delete _ => true
  | .si_delete_noop _ => true
  | _ => false

/-- Pool reads, the first step of reconciliation. -/
def ApiCall.isPoolRead : ApiCall → Bool
  | .pool_read _ => true
  | _ => false

/-- Service-instance create or update calls. -/
def ApiCall.isSiWrite : ApiCall → Bool
  | .si_create _ => true
  | .si_update _ => true
  | _ => false

/-- The qualified name the reconciler derives for the service instance:
the parent scope of the pool plus the pool id. -/
def fqOf (pool : LoadbalancerPool) (pool_id : String) : List String :=
  pool.fq_name.dropLast ++ [pool_id]

/-!  Concrete scenario used by the witnesses and counterexamples: one
project scope, a pool p1 and a vip v1 whose interface sits on network
net-A with bound address 10.0.0.5, matching the scenario of the spec. -/

/-- A store with nothing in it except the well-known template. -/
def emptyApi : ApiState :=
  { pools := fun _ => none, vips := fun _ => none, vmis := fun _ => none,
    iips := fun _ => none, vnets := fun _ => none, projects := fun _ => none,
    template := some { fq_name := LOADBALANCER_SERVICE_TEMPLATE },
    service_instances := fun _ => none, si_refs_exist := fun _ => false,
    subnet_network := fun _ => "", next_uuid := "si-uuid-1" }

/-- Pool p1, backend subnet subnet-A. -/
def pool1 : LoadbalancerPool :=
  { uuid := "p1", fq_name := ["default-domain", "demo", "p1"],
    loadbalancer_pool_properties := { subnet_id := "subnet-A" },
    service_instance_refs := none }

/-- Vip v1, bound to interface vmi1. -/
def vip1 : VirtualIp :=
  { virtual_machine_interface_refs := some [{ uuid := "vmi1" }] }

/-- Interface vmi1 on network net-A with one instance ip. -/
def vmi1 : VirtualMachineInterface :=
  { virtual_network_refs :=
      some [{ ref_to := ["default-domain", "demo", "net-A"],
              uuid := "netA" }],
    instance_ip_back_refs := some [{ uuid := "iip1" }] }

/-- The store of the single-network scenario. -/
def api1 : ApiState :=
  { emptyApi with
    pools := fun i => if i = "p1" then some pool1 else none,
    vips := fun i => if i = "v1" then some vip1 else none,
    vmis := fun i => if i = "vmi1" then some vmi1 else none,
    iips := fun i =>
      if i = "iip1" then some { instance_ip_address := some "10.0.0.5" }
      else none,
    vnets := fun i =>
      if i = "netB" then some { fq_name := ["default-domain", "demo", "net-B"] }
      else none,
    projects := fun i =>
      if i = "t1" then some { fq_name := ["default-domain", "demo"] }
      else none,
    subnet_network := fun sid =>
      if sid = "subnet-A" then "netA"
      else if sid = "subnet-B" then "netB" else "" }

/-- Driver state for the single-network scenario, template not cached. -/
def st1 : DriverState := { api := api1, lb_template := none, events := [] }

/-- The two-network scenario of the spec: the pool backend subnet
belongs to net-B while the vip interface sits on net-A. -/
def poolB : LoadbalancerPool :=
  { pool1 with loadbalancer_pool_properties := { subnet_id := "subnet-B" } }

/-- Store of the two-network scenario. -/
def apiB : ApiState :=
  { api1 with pools := fun i => if i = "p1" then some poolB else none }

/-- Driver state of the two-network scenario. -/
def stB : DriverState := { api := apiB, lb_template := none, events := [] }

/-- The single-network scenario with the remote template missing. -/
def stT : DriverState :=
  { api := { api1 with template := none }, lb_template := none, events := [] }

/-- A vip with no interface reference at all. -/
def vipN : VirtualIp := { virtual_machine_interface_refs := none }

/-- Existing service instance at the qualified name the reconciler
derives for p1, carrying the desired single-network properties. -/
def siExisting : ServiceInstance :=
  { fq_name := ["default-domain", "demo", "p1"], uuid := "si-old",
    parent_type := "project",
    service_instance_properties :=
      { right_virtual_network := some "default-domain:demo:net-A",
        right_ip_address := some "10.0.0.5",
        left_virtual_network := none },
    service_template_ref := some LOADBALANCER_SERVICE_TEMPLATE }

/-- Single-network scenario with a dangling vip (no interface) and an
existing service instance that still has references. -/
def stN : DriverState :=
  { api := { api1 with
      vips := fun i => if i = "v1" then some vipN else none,
      service_instances :=
        fun f => if f = ["default-domain", "demo", "p1"] then some siExisting
                 else none,
      si_refs_exist := fun _ => true },
    lb_template := none, events := [] }

/-- Same as stN but the existing instance holds no references, so the
delete can proceed. -/
def stN2 : DriverState :=
  { stN with api := { stN.api with si_refs_exist := fun _ => false } }

/-- Single-network scenario with an existing instance whose address
field drifted, and with the pool reference already pointing at it. -/
def stDrift : DriverState :=
  { api := { api1 with
      pools := fun i =>
        if i = "p1" then
          some { pool1 with service_instance_refs := some [{ uuid := "si-old" }] }
        else none,
      service_instances :=
        fun f => if f = ["default-domain", "demo", "p1"] then
                   some { siExisting with
                     service_instance_properties :=
                       { right_virtual_network :=
                           some "default-domain:demo:net-A",
                         right_ip_address := some "10.9.9.9",
                         left_virtual_network := none } }
                 else none },
    lb_template := some { fq_name := LOADBALANCER_SERVICE_TEMPLATE },
    events := [] }

/-- Single-network scenario with an existing, matching instance and a
matching pool reference: reconcile has nothing to do. -/
def stSettled : DriverState :=
  { api := { api1 with
      pools := fun i =>
        if i = "p1" then
          some { pool1 with service_instance_refs := some [{ uuid := "si-old" }] }
        else none,
      service_instances :=
        fun f => if f = ["default-domain", "demo", "p1"] then some siExisting
                 else none },
    lb_template := some { fq_name := LOADBALANCER_SERVICE_TEMPLATE },
    events := [] }

/-!  Run lemmas: exact-result equations for the remote operations and
the read-only phases, used to drive the reconciliation proofs. -/

theorem pool_read_some {s : DriverState} {id : String}
    {p : LoadbalancerPool} (h : s.api.pools id = some p) :
    loadbalancer_pool_read id s = (.ok p, s.log (.pool_read id)) := by
  simp [loadbalancer_pool_read, h]

theorem pool_read_none {s : DriverState} {id : String}
    (h : s.api.pools id = none) :
    loadbalancer_pool_read id s = (.error .noIdError, s.log (.pool_read id)) := by
  simp [loadbalancer_pool_read, h]

theorem vip_read_some {s : DriverState} {id : String} {v : VirtualIp}
    (h : s.api.vips id = some v) :
    virtual_ip_read id s = (.ok v, s.log (.vip_read id)) := by
  simp [virtual_ip_read, h]

theorem vip_read_none {s : DriverState} {id : String}
    (h : s.api.vips id = none) :
    virtual_ip_read id s = (.error .noIdError, s.log (.vip_read id)) := by
  simp [virtual_ip_read, h]

theorem project_read_some {s : DriverState} {id : String} {p : Project}
    (h : s.api.projects id = some p) :
    project_read id s = (.ok p, s.log (.project_read id)) := by
  simp [project_read, h]

theorem project_read_none {s : DriverState} {id : String}
    (h : s.api.projects id = none) :
    project_read id s = (.error .noIdError, s.log (.project_read id)) := by
  simp [project_read, h]

theorem si_read_some {s : DriverState} {fq : List String}
    {si : ServiceInstance} (h : s.api.service_instances fq = some si) :
    service_instance_read fq s = (.ok si, s.log (.si_read fq)) := by
  simp [service_instance_read, h]

theorem si_read_none {s : DriverState} {fq : List String}
    (h : s.api.service_instances fq = none) :
    service_instance_read fq s = (.error .noIdError, s.log (.si_read fq)) := by
  simp [service_instance_read, h]

theorem si_delete_absent {s : DriverState} {fq : List String}
    (h : s.api.service_instances fq = none) :
    service_instance_delete fq s =
      (.error .noIdError, s.log (.si_delete_noop fq)) := by
  simp [service_instance_delete, h]

theorem si_delete_refs {s : DriverState} {fq : List String}
    {si : ServiceInstance} (h : s.api.service_instances fq = some si)
    (hr : s.api.si_refs_exist fq = true) :
    service_instance_delete fq s =
      (.error .refsExistError, s.log (.si_delete_noop fq)) := by
  simp [service_instance_delete, h, hr]

theorem si_delete_gone {s : DriverState} {fq : List String}
    {si : ServiceInstance} (h : s.api.service_instances fq = some si)
    (hr : s.api.si_refs_exist fq = false) :
    service_instance_delete fq s =
      (.ok (),
        { s with
          api := { s.api with
            service_instances :=
              fun f => if f = fq then none else s.api.service_instances f },
          events := s.events ++ [.si_delete fq] }) := by
  simp [service_instance_delete, h, hr]

theorem get_template_cached {s : DriverState} {t : ServiceTemplate}
    (h : s.lb_template = some t) : _get_template s = (.ok (), s) := by
  simp [_get_template, h]

theorem get_template_load {s : DriverState} {t : ServiceTemplate}
    (h : s.lb_template = none) (ht : s.api.template = some t) :
    _get_template s =
      (.ok (),
        { s with lb_template := some t,
                 events := s.events ++
                   [.template_read LOADBALANCER_SERVICE_TEMPLATE] }) := by
  simp [_get_template, h, service_template_read, ht, DriverState.log]

theorem get_template_fail {s : DriverState}
    (h : s.lb_template = none) (ht : s.api.template = none) :
    _get_template s =
      (.error (.nameError "pool_id"),
        s.log (.template_read LOADBALANCER_SERVICE_TEMPLATE)) := by
  simp [_get_template, h, service_template_read, ht, DriverState.log]

theorem addr_run (vmi : VirtualMachineInterface) (s : DriverState) :
    _get_interface_address vmi s =
      (addrF s.api vmi, { s with events := s.events ++ addrTraceF vmi }) := by
  cases h : vmi.instance_ip_back_refs with
  | none => simp [_get_interface_address, addrF, addrTraceF, h]
  | some l =>
    cases l with
    | nil => simp [_get_interface_address, addrF, addrTraceF, h, pyIndex0]
    | cons r t =>
      cases hi : s.api.iips r.uuid <;>
        simp [_get_interface_address, addrF, addrTraceF, h, pyIndex0,
              instance_ip_read, hi, DriverState.log]

theorem calc_run (pool : LoadbalancerPool) (vip : VirtualIp)
    (s : DriverState) :
    _calculate_instance_properties pool vip s =
      (calcF s.api pool vip,
       { s with events := s.events ++ calcTraceF s.api pool vip }) := by
  cases hv : vip.virtual_machine_interface_refs with
  | none =>
    simp [_calculate_instance_properties, _get_virtual_ip_interface,
          calcF, calcTraceF, hv]
  | some l =>
    cases l with
    | nil =>
      simp [_calculate_instance_properties, _get_virtual_ip_interface,
            calcF, calcTraceF, hv, pyIndex0]
    | cons r rl =>
      cases hm : s.api.vmis r.uuid with
      | none =>
        simp [_calculate_instance_properties, _get_virtual_ip_interface,
              calcF, calcTraceF, hv, pyIndex0,
              virtual_machine_interface_read, hm, DriverState.log]
      | some vmi =>
        cases hn : vmi.virtual_network_refs with
        | none =>
          simp [_calculate_instance_properties, _get_virtual_ip_interface,
                calcF, calcTraceF, hv, pyIndex0,
                virtual_machine_interface_read, hm, hn, DriverState.log]
        | some nl =>
          cases nl with
          | nil =>
            simp [_calculate_instance_properties, _get_virtual_ip_interface,
                  calcF, calcTraceF, hv, pyIndex0,
                  virtual_machine_interface_read, hm, hn, DriverState.log]
          | cons vr vl =>
            have haddr := addr_run vmi
              ({ s with events := s.events ++ [.vmi_read r.uuid] })
            cases ha : addrF s.api vmi with
            | error e =>
              simp [_calculate_instance_properties, _get_virtual_ip_interface,
                    calcF, calcTraceF, hv, pyIndex0,
                    virtual_machine_interface_read, hm, hn, DriverState.log,
                    haddr, ha]
            | ok ao =>
              cases ao with
              | none =>
                simp [_calculate_instance_properties,
                      _get_virtual_ip_interface, calcF, calcTraceF, hv,
                      pyIndex0, virtual_machine_interface_read, hm, hn,
                      DriverState.log, haddr, ha]
              | some addr =>
                by_cases hb :
                  s.api.subnet_network
                    pool.loadbalancer_pool_properties.subnet_id = vr.uuid
                · simp [_calculate_instance_properties,
                        _get_virtual_ip_interface, calcF, calcTraceF, hv,
                        pyIndex0, virtual_machine_interface_read, hm, hn,
                        DriverState.log, haddr, ha, hb]
                · cases hvn : s.api.vnets
                    (s.api.subnet_network
                      pool.loadbalancer_pool_properties.subnet_id) <;>
                    simp [_calculate_instance_properties,
                          _get_virtual_ip_interface, calcF, calcTraceF, hv,
                          pyIndex0, virtual_machine_interface_read, hm, hn,
                          DriverState.log, haddr, ha, hb, pyListJoin,
                          virtual_network_read, hvn]

theorem update_props_spec (si : ServiceInstance)
    (props : ServiceInstanceType) :
    _service_instance_update_props si props =
      ({ si with service_instance_properties := props },
       decide (si.service_instance_properties ≠ props)) := by
  rcases hc : si.service_instance_properties with ⟨c1, c2, c3⟩
  rcases props with ⟨n1, n2, n3⟩
  by_cases h1 : c1 = n1 <;> by_cases h2 : c2 = n2 <;> by_cases h3 : c3 = n3 <;>
    simp [_service_instance_update_props, hc, ServiceInstanceType.mk.injEq,
          h1, h2, h3]

theorem upr_refs_none {pool : LoadbalancerPool} {si : ServiceInstance}
    {s : DriverState} (h : pool.service_instance_refs = none) :
    _update_pool_ref pool si s =
      (.ok (),
        { s with
          api := { s.api with
            pools := fun i => if i = pool.uuid
                              then some (pool.set_service_instance si)
                              else s.api.pools i },
          events := s.events ++
            [.pool_update (pool.set_service_instance si)] }) := by
  simp [_update_pool_ref, h, loadbalancer_pool_update,
        LoadbalancerPool.set_service_instance]

theorem upr_refs_nil {pool : LoadbalancerPool} {si : ServiceInstance}
    {s : DriverState} (h : pool.service_instance_refs = some []) :
    _update_pool_ref pool si s = (.error .indexError, s) := by
  simp [_update_pool_ref, h, pyIndex0]

theorem upr_refs_stale {pool : LoadbalancerPool} {si : ServiceInstance}
    {s : DriverState} {r : UuidRef} {rl : List UuidRef}
    (h : pool.service_instance_refs = some (r :: rl))
    (hne : r.uuid ≠ si.uuid) :
    _update_pool_ref pool si s =
      (.ok (),
        { s with
          api := { s.api with
            pools := fun i => if i = pool.uuid
                              then some (pool.set_service_instance si)
                              else s.api.pools i },
          events := s.events ++
            [.pool_update (pool.set_service_instance si)] }) := by
  simp [_update_pool_ref, h, pyIndex0, hne, loadbalancer_pool_update,
        LoadbalancerPool.set_service_instance]

theorem upr_refs_match {pool : LoadbalancerPool} {si : ServiceInstance}
    {s : DriverState} {r : UuidRef} {rl : List UuidRef}
    (h : pool.service_instance_refs = some (r :: rl))
    (heq : r.uuid = si.uuid) :
    _update_pool_ref pool si s = (.ok (), s) := by
  simp [_update_pool_ref, h, pyIndex0, heq]

theorem addrTrace_plain (vmi : VirtualMachineInterface) :
    (addrTraceF vmi).all ApiCall.isPlainRead = true := by
  cases hb : vmi.instance_ip_back_refs with
  | none => simp [addrTraceF, hb]
  | some l =>
    cases l with
    | nil => simp [addrTraceF, hb]
    | cons r t => simp [addrTraceF, hb, ApiCall.isPlainRead]

theorem calcTrace_plain (api : ApiState) (pool : LoadbalancerPool)
    (vip : VirtualIp) :
    (calcTraceF api pool vip).all ApiCall.isPlainRead = true := by
  cases hv : vip.virtual_machine_interface_refs with
  | none => simp [calcTraceF, hv]
  | some l =>
    cases l with
    | nil => simp [calcTraceF, hv]
    | cons r rl =>
      cases hm : api.vmis r.uuid with
      | none => simp [calcTraceF, hv, hm, ApiCall.isPlainRead]
      | some vmi =>
        cases hn : vmi.virtual_network_refs with
        | none => simp [calcTraceF, hv, hm, hn, ApiCall.isPlainRead]
        | some nl =>
          cases nl with
          | nil => simp [calcTraceF, hv, hm, hn, ApiCall.isPlainRead]
          | cons vr vl =>
            cases ha : addrF api vmi with
            | error e =>
              simp [calcTraceF, hv, hm, hn, ha, List.all_append,
                    addrTrace_plain, ApiCall.isPlainRead]
            | ok ao =>
              cases ao with
              | none =>
                simp [calcTraceF, hv, hm, hn, ha, List.all_append,
                      addrTrace_plain, ApiCall.isPlainRead]
              | some a =>
                by_cases hs : api.subnet_network
                    pool.loadbalancer_pool_properties.subnet_id = vr.uuid <;>
                  simp [calcTraceF, hv, hm, hn, ha, hs, List.all_append,
                        addrTrace_plain, ApiCall.isPlainRead]

theorem filter_nil_of_plain {p : ApiCall → Bool} {es : List ApiCall}
    (hall : es.all ApiCall.isPlainRead = true)
    (himp : ∀ e, ApiCall.isPlainRead e = true → p e = false) :
    es.filter p = [] := by
  induction es with
  | nil => rfl
  | cons e t ih =>
    simp only [List.all_cons, Bool.and_eq_true] at hall
    simp [List.filter_cons, himp e hall.1, ih hall.2]

theorem all_of_plain {p : ApiCall → Bool} {es : List ApiCall}
    (hall : es.all ApiCall.isPlainRead = true)
    (himp : ∀ e, ApiCall.isPlainRead e = true → p e = true) :
    es.all p = true := by
  induction es with
  | nil => rfl
  | cons e t ih =>
    simp only [List.all_cons, Bool.and_eq_true] at hall ⊢
    exact ⟨himp e hall.1, ih hall.2⟩

theorem calcF_congr {a1 a2 : ApiState} {pool1 pool2 : LoadbalancerPool}
    (vip : VirtualIp)
    (h1 : a1.vmis = a2.vmis) (h2 : a1.iips = a2.iips)
    (h3 : a1.vnets = a2.vnets) (h4 : a1.subnet_network = a2.subnet_network)
    (hpool : pool1.loadbalancer_pool_properties =
             pool2.loadbalancer_pool_properties) :
    calcF a1 pool1 vip = calcF a2 pool2 vip ∧
    calcTraceF a1 pool1 vip = calcTraceF a2 pool2 vip := by
  unfold calcF calcTraceF addrF addrTraceF
  rw [h1, h2, h3, h4, hpool]
  exact ⟨rfl, rfl⟩

theorem reconcile_success {s : DriverState} {pool_id vip_id : String}
    {pool : LoadbalancerPool} {vip : VirtualIp}
    {props : ServiceInstanceType}
    (hp : s.api.pools pool_id = some pool)
    (hv : s.api.vips vip_id = some vip)
    (hc : calcF s.api pool vip = .ok (some props)) :
    _update_loadbalancer_instance pool_id vip_id s =
      _reconcile_instance (fqOf pool pool_id) props pool
        { s with events := s.events ++ [.pool_read pool_id, .vip_read vip_id]
            ++ calcTraceF s.api pool vip } := by
  simp only [_update_loadbalancer_instance, loadbalancer_pool_read,
             virtual_ip_read, hp, hv, DriverState.log]
  rw [calc_run]
  simp [hc, fqOf]

theorem reconcile_noconfig {s : DriverState} {pool_id vip_id : String}
    {pool : LoadbalancerPool} {vip : VirtualIp}
    (hp : s.api.pools pool_id = some pool)
    (hv : s.api.vips vip_id = some vip)
    (hc : calcF s.api pool vip = .ok none) :
    _update_loadbalancer_instance pool_id vip_id s =
      (match service_instance_delete (fqOf pool pool_id)
          { s with events := s.events ++ [.pool_read pool_id, .vip_read vip_id]
              ++ calcTraceF s.api pool vip } with
       | (.ok _, s4) => (.ok (), s4)
       | (.error .refsExistError, s4) => (.ok (), s4)
       | (.error e, s4) => (.error e, s4)) := by
  simp only [_update_loadbalancer_instance, loadbalancer_pool_read,
             virtual_ip_read, hp, hv, DriverState.log]
  rw [calc_run]
  simp [hc, fqOf]

theorem reconcile_error {s : DriverState} {pool_id vip_id : String}
    {pool : LoadbalancerPool} {vip : VirtualIp} {e : Err}
    (hp : s.api.pools pool_id = some pool)
    (hv : s.api.vips vip_id = some vip)
    (hc : calcF s.api pool vip = .error e) :
    _update_loadbalancer_instance pool_id vip_id s =
      (.error e,
        { s with events := s.events ++ [.pool_read pool_id, .vip_read vip_id]
            ++ calcTraceF s.api pool vip }) := by
  simp only [_update_loadbalancer_instance, loadbalancer_pool_read,
             virtual_ip_read, hp, hv, DriverState.log]
  rw [calc_run]
  cases e <;> simp [hc]

theorem plain_not_mut {e : ApiCall} (h : e.isPlainRead = true) :
    e.isSiCreate = false ∧ e.isSiUpdate = false ∧ e.isPoolUpdate = false ∧
    e.isTemplateRead = false ∧ e.isWrite = false ∧ e.isDeleteCall = false ∧
    e.isSiWrite = false := by
  cases e <;>
    simp_all [ApiCall.isPlainRead, ApiCall.isSiCreate, ApiCall.isSiUpdate,
              ApiCall.isPoolUpdate, ApiCall.isTemplateRead, ApiCall.isWrite,
              ApiCall.isDeleteCall, ApiCall.isSiWrite]

theorem calcTrace_no_writes (api : ApiState) (pool : LoadbalancerPool)
    (vip : VirtualIp) :
    writesOf (calcTraceF api pool vip) = [] := by
  exact filter_nil_of_plain (calcTrace_plain api pool vip)
    (fun e he => (plain_not_mut he).2.2.2.2.1)

theorem calcTrace_no_cu (api : ApiState) (pool : LoadbalancerPool)
    (vip : VirtualIp) :
    (calcTraceF api pool vip).all
      (fun e => !(e.isSiCreate || e.isSiUpdate || e.isPoolUpdate)) = true := by
  refine all_of_plain (calcTrace_plain api pool vip) (fun e he => ?_)
  obtain ⟨h1, h2, h3, _, _, _⟩ := plain_not_mut he
  simp [h1, h2, h3]

theorem calcTrace_no_template (api : ApiState) (pool : LoadbalancerPool)
    (vip : VirtualIp) :
    (calcTraceF api pool vip).all (fun e => !e.isTemplateRead) = true := by
  refine all_of_plain (calcTrace_plain api pool vip) (fun e he => ?_)
  simp [(plain_not_mut he).2.2.2.1]

theorem calcTrace_filter_siw (api : ApiState) (pool : LoadbalancerPool)
    (vip : VirtualIp) (p : ApiCall → Bool)
    (hp : ∀ e, e.isPlainRead = true → p e = false) :
    (calcTraceF api pool vip).filter p = [] :=
  filter_nil_of_plain (calcTrace_plain api pool vip) hp

theorem calcTrace_mem (api : ApiState) (pool : LoadbalancerPool)
    (vip : VirtualIp) :
    ∀ e ∈ calcTraceF api pool vip,
      e.isSiCreate = false ∧ e.isSiUpdate = false ∧ e.isPoolUpdate = false ∧
      e.isTemplateRead = false ∧ e.isWrite = false := by
  intro e he
  have hpl : e.isPlainRead = true := by
    have h := calcTrace_plain api pool vip
    rw [List.all_eq_true] at h
    exact h e he
  obtain ⟨a, b, c, d, w, _⟩ := plain_not_mut hpl
  exact ⟨a, b, c, d, w⟩

/-- C1: When the pool backend subnet belongs to a different network than
the vip-side interface network, the spec expects left_virtual_network to
be set to the backend network qualified name as a colon-joined string.
The source instead evaluates vnet.get_fq_name().join on the qualified
name list; Python lists have no join attribute, so the calculation (and
with it the whole reconcile call) raises AttributeError on the
two-network scenario rather than producing properties. -/
theorem C1_two_network_attribute_fault :
    (_calculate_instance_properties poolB vip1 stB).1 =
      .error (.attributeError "list object has no attribute join") ∧
    (_update_loadbalancer_instance "p1" "v1" stB).1 =
      .error (.attributeError "list object has no attribute join") ∧
    stB.api.subnet_network poolB.loadbalancer_pool_properties.subnet_id =
      "netB" ∧
    stB.api.vnets "netB" =
      some { fq_name := ["default-domain", "demo", "net-B"] } := by
  refine ⟨rfl, rfl, by decide, by decide⟩

/-- C2: A reconcile call that reaches the template-loading step with the
template not cached and the remote template read failing with not-found
is supposed to fail with a bad request naming the pool.  The except
branch of the source builds its message from the name pool_id, which is
not bound inside _get_template, so the call instead fails with a Python
NameError. -/
theorem C2_template_missing_name_fault :
    (_get_template stT).1 = .error (.nameError "pool_id") ∧
    (_update_loadbalancer_instance "p1" "v1" stT).1 =
      .error (.nameError "pool_id") := by
  refine ⟨rfl, rfl⟩

/-- C6: When the pool read fails with not-found, reconcile fails with a
bad request naming the pool; otherwise when the vip read fails with
not-found it fails with a bad request naming the virtual-ip; in both
cases the remote store is untouched and no write call was made. -/
theorem C6_missing_pool_or_vip_bad_request (s : DriverState)
    (pool_id vip_id : String) (hev : s.events = []) :
    (s.api.pools pool_id = none →
      (_update_loadbalancer_instance pool_id vip_id s).1 =
        .error (.badRequest "pool" ("Unable to retrieve pool " ++ pool_id)) ∧
      writesOf (_update_loadbalancer_instance pool_id vip_id s).2.events
        = [] ∧
      (_update_loadbalancer_instance pool_id vip_id s).2.api = s.api) ∧
    (∀ pool, s.api.pools pool_id = some pool → s.api.vips vip_id = none →
      (_update_loadbalancer_instance pool_id vip_id s).1 =
        .error (.badRequest "vip"
          ("Unable to retrieve virtual-ip " ++ vip_id)) ∧
      writesOf (_update_loadbalancer_instance pool_id vip_id s).2.events
        = [] ∧
      (_update_loadbalancer_instance pool_id vip_id s).2.api = s.api) := by
  constructor
  · intro h
    simp [_update_loadbalancer_instance, loadbalancer_pool_read, h,
          DriverState.log, writesOf, hev, ApiCall.isWrite]
  · intro pool hp hvn
    simp [_update_loadbalancer_instance, loadbalancer_pool_read, hp,
          virtual_ip_read, hvn, DriverState.log, writesOf, hev,
          ApiCall.isWrite]

/-- Witness for C6 on the concrete scenario: unknown pool id px, and
known pool p1 with unknown vip id vx. -/
theorem C6_missing_pool_or_vip_bad_request_witness :
    (_update_loadbalancer_instance "px" "v1" st1).1 =
      .error (.badRequest "pool" ("Unable to retrieve pool " ++ "px")) ∧
    (_update_loadbalancer_instance "p1" "vx" st1).1 =
      .error (.badRequest "vip" ("Unable to retrieve virtual-ip " ++ "vx"))
    := by
  refine ⟨((C6_missing_pool_or_vip_bad_request st1 "px" "v1" rfl).1
            (by decide)).1, ?_⟩
  exact ((C6_missing_pool_or_vip_bad_request st1 "p1" "vx" rfl).2 pool1
          (by decide) (by decide)).1

/-- C8: Clearing with a tenant whose project is gone logs and returns
without any delete call and without an error; when the project exists
and the delete fails because references still exist, the call returns
without an error and the store is untouched. -/
theorem C8_clear_tolerates_missing_project (s : DriverState)
    (tenant_id pool_id : String) (hev : s.events = []) :
    (s.api.projects tenant_id = none →
      (_clear_loadbalancer_instance tenant_id pool_id s).1 = .ok () ∧
      (_clear_loadbalancer_instance tenant_id pool_id s).2.events.all
        (fun e => !e.isDeleteCall) = true ∧
      (_clear_loadbalancer_instance tenant_id pool_id s).2.api = s.api) ∧
    (∀ proj si, s.api.projects tenant_id = some proj →
      s.api.service_instances (proj.fq_name ++ [pool_id]) = some si →
      s.api.si_refs_exist (proj.fq_name ++ [pool_id]) = true →
      (_clear_loadbalancer_instance tenant_id pool_id s).1 = .ok () ∧
      writesOf (_clear_loadbalancer_instance tenant_id pool_id s).2.events
        = [] ∧
      (_clear_loadbalancer_instance tenant_id pool_id s).2.api = s.api) := by
  constructor
  · intro h
    simp [_clear_loadbalancer_instance, project_read, h, DriverState.log,
          hev, ApiCall.isDeleteCall]
  · intro proj si hp hsi hre
    simp [_clear_loadbalancer_instance, project_read, hp, DriverState.log,
          service_instance_delete, hsi, hre, hev, writesOf, ApiCall.isWrite]

/-- Witness for C8: tenant tx has no project; tenant t1 has one and the
existing instance still holds references. -/
theorem C8_clear_tolerates_missing_project_witness :
    (_clear_loadbalancer_instance "tx" "p1" stN).1 = .ok () ∧
    (_clear_loadbalancer_instance "t1" "p1" stN).1 = .ok () := by
  refine ⟨((C8_clear_tolerates_missing_project stN "tx" "p1" rfl).1
            (by decide)).1, ?_⟩
  exact ((C8_clear_tolerates_missing_project stN "t1" "p1" rfl).2
          { fq_name := ["default-domain", "demo"] } siExisting
          (by decide) (by decide) (by decide)).1

/-- C10: create_vip and create_pool load the service template before
checking the relation field, so a vip with an empty pool_id (or a pool
with an empty vip_id) still triggers a remote template read when the
template is not cached; when that read fails the failure (here the
NameError of the broken except branch) surfaces to the caller although
no reconciliation is attempted and nothing is written. -/
theorem C10_template_read_before_relation_check (s : DriverState)
    (hev : s.events = []) (hcache : s.lb_template = none) :
    (∀ v : VipDict, v.pool_id = "" →
      (create_vip v s).2.events.any ApiCall.isTemplateRead = true ∧
      (s.api.template = none →
        (create_vip v s).1 = .error (.nameError "pool_id") ∧
        writesOf (create_vip v s).2.events = [] ∧
        (create_vip v s).2.events.all (fun e => !e.isPoolRead) = true)) ∧
    (∀ p : PoolDict, p.vip_id = "" →
      (create_pool p s).2.events.any ApiCall.isTemplateRead = true ∧
      (s.api.template = none →
        (create_pool p s).1 = .error (.nameError "pool_id") ∧
        writesOf (create_pool p s).2.events = [] ∧
        (create_pool p s).2.events.all (fun e => !e.isPoolRead) = true)) := by
  constructor
  · intro v hvp
    cases ht : s.api.template with
    | some t =>
      simp [create_vip, get_template_load hcache ht, hvp, hev, ht,
            ApiCall.isTemplateRead]
    | none =>
      simp [create_vip, get_template_fail hcache ht, hvp, hev,
            DriverState.log, writesOf, ApiCall.isWrite,
            ApiCall.isTemplateRead, ApiCall.isPoolRead]
  · intro p hvp
    cases ht : s.api.template with
    | some t =>
      simp [create_pool, get_template_load hcache ht, hvp, hev, ht,
            ApiCall.isTemplateRead]
    | none =>
      simp [create_pool, get_template_fail hcache ht, hvp, hev,
            DriverState.log, writesOf, ApiCall.isWrite,
            ApiCall.isTemplateRead, ApiCall.isPoolRead]

/-- Witness for C10 at the concrete store with the template missing. -/
theorem C10_template_read_before_relation_check_witness :
    ((create_vip { id := "v1", pool_id := "", tenant_id := "t1" } stT)
      |>.2.events.any ApiCall.isTemplateRead) = true ∧
    (create_vip { id := "v1", pool_id := "", tenant_id := "t1" } stT).1 =
      .error (.nameError "pool_id") ∧
    ((create_pool { id := "p1", vip_id := "", tenant_id := "t1" } stT)
      |>.2.events.any ApiCall.isTemplateRead) = true ∧
    (create_pool { id := "p1", vip_id := "", tenant_id := "t1" } stT).1 =
      .error (.nameError "pool_id") := by
  have h := C10_template_read_before_relation_check stT rfl rfl
  have hv := h.1 { id := "v1", pool_id := "", tenant_id := "t1" } rfl
  have hp := h.2 { id := "p1", vip_id := "", tenant_id := "t1" } rfl
  exact ⟨hv.1, (hv.2 rfl).1, hp.1, (hp.2 rfl).1⟩

/-- C3: When the vip has no interface reference, the interface read
fails with not-found, the interface has no network reference, or no
bound address resolves, the property calculation yields no
configuration (not an error); reconcile then attempts the delete at the
derived qualified name, performs no create, update or pool update, does
not read the template and leaves the cached template untouched, and
when an instance exists at that name the call returns without error. -/
theorem C3_no_config_deletes_only (s : DriverState) (pool_id vip_id : String)
    (pool : LoadbalancerPool) (vip : VirtualIp)
    (hp : s.api.pools pool_id = some pool)
    (hv : s.api.vips vip_id = some vip)
    (hnc :
      vip.virtual_machine_interface_refs = none ∨
      (∃ r rl, vip.virtual_machine_interface_refs = some (r :: rl) ∧
        s.api.vmis r.uuid = none) ∨
      (∃ r rl vmi, vip.virtual_machine_interface_refs = some (r :: rl) ∧
        s.api.vmis r.uuid = some vmi ∧
        (vmi.virtual_network_refs = none ∨
         (∃ vr vl, vmi.virtual_network_refs = some (vr :: vl) ∧
           (vmi.instance_ip_back_refs = none ∨
            (∃ ir il, vmi.instance_ip_back_refs = some (ir :: il) ∧
              (s.api.iips ir.uuid = none ∨
               (∃ iip, s.api.iips ir.uuid = some iip ∧
                 iip.instance_ip_address = none))))))))
    (hev : s.events = []) :
    (_calculate_instance_properties pool vip s).1 = .ok none ∧
    (_update_loadbalancer_instance pool_id vip_id s).2.events.any
      (ApiCall.isDeleteAttemptAt (fqOf pool pool_id)) = true ∧
    (_update_loadbalancer_instance pool_id vip_id s).2.events.all
      (fun e => !(e.isSiCreate || e.isSiUpdate || e.isPoolUpdate)) = true ∧
    (_update_loadbalancer_instance pool_id vip_id s).2.events.all
      (fun e => !e.isTemplateRead) = true ∧
    (_update_loadbalancer_instance pool_id vip_id s).2.lb_template =
      s.lb_template ∧
    ((s.api.service_instances (fqOf pool pool_id)).isSome →
      (_update_loadbalancer_instance pool_id vip_id s).1 = .ok ()) := by
  have hcalc : calcF s.api pool vip = .ok none := by
    rcases hnc with h |
      ⟨r, rl, hr, hm⟩ |
      ⟨r, rl, vmi, hr, hm,
        hn | ⟨vr, vl, hn, hb | ⟨ir, il, hb, hi | ⟨iip, hi, ha⟩⟩⟩⟩ <;>
      simp [calcF, addrF, *]
  refine ⟨by simp [calc_run, hcalc], ?_⟩
  rw [reconcile_noconfig hp hv hcalc]
  have hm := calcTrace_mem s.api pool vip
  cases hsi : s.api.service_instances (fqOf pool pool_id) with
  | none =>
    simp [service_instance_delete, hsi, hev, DriverState.log,
          List.any_append, List.all_append, ApiCall.isDeleteAttemptAt,
          ApiCall.isSiCreate, ApiCall.isSiUpdate, ApiCall.isPoolUpdate,
          ApiCall.isTemplateRead]
    exact ⟨fun x hx => ⟨⟨(hm x hx).1, (hm x hx).2.1⟩, (hm x hx).2.2.1⟩,
           fun x hx => (hm x hx).2.2.2.1⟩
  | some si =>
    cases hre : s.api.si_refs_exist (fqOf pool pool_id) <;>
      simp [service_instance_delete, hsi, hre, hev, DriverState.log,
            List.any_append, List.all_append, ApiCall.isDeleteAttemptAt,
            ApiCall.isSiCreate, ApiCall.isSiUpdate, ApiCall.isPoolUpdate,
            ApiCall.isTemplateRead] <;>
      exact ⟨fun x hx => ⟨⟨(hm x hx).1, (hm x hx).2.1⟩, (hm x hx).2.2.1⟩,
             fun x hx => (hm x hx).2.2.2.1⟩

/-- Witness for C3: the dangling vip of the concrete scenario, with an
existing referenced instance at the derived qualified name. -/
theorem C3_no_config_deletes_only_witness :
    (_calculate_instance_properties pool1 vipN stN).1 = .ok none ∧
    (_update_loadbalancer_instance "p1" "v1" stN).2.events.any
      (ApiCall.isDeleteAttemptAt (fqOf pool1 "p1")) = true ∧
    (_update_loadbalancer_instance "p1" "v1" stN).1 = .ok () := by
  have h := C3_no_config_deletes_only stN "p1" "v1" pool1 vipN
    (by decide) (by decide) (Or.inl rfl) rfl
  exact ⟨h.1, h.2.1, h.2.2.2.2.2 (by decide)⟩

/-- C9: In the no-configuration branch of reconcile and in the clear
path the delete call is issued unconditionally; only the
references-exist failure is absorbed, so when no service instance exists
at the derived qualified name the not-found error of the delete
propagates to the caller. -/
theorem C9_delete_noid_propagates (s : DriverState) :
    (∀ pool_id vip_id pool vip,
      s.api.pools pool_id = some pool →
      s.api.vips vip_id = some vip →
      (_calculate_instance_properties pool vip s).1 = .ok none →
      ((_update_loadbalancer_instance pool_id vip_id s).2.events.any
         (ApiCall.isDeleteAttemptAt (fqOf pool pool_id)) = true) ∧
      (s.api.service_instances (fqOf pool pool_id) = none →
        (_update_loadbalancer_instance pool_id vip_id s).1 =
          .error .noIdError) ∧
      (∀ si, s.api.service_instances (fqOf pool pool_id) = some si →
        s.api.si_refs_exist (fqOf pool pool_id) = true →
        (_update_loadbalancer_instance pool_id vip_id s).1 = .ok ())) ∧
    (∀ tenant_id pool_id proj,
      s.api.projects tenant_id = some proj →
      ((_clear_loadbalancer_instance tenant_id pool_id s).2.events.any
         (ApiCall.isDeleteAttemptAt (proj.fq_name ++ [pool_id])) = true) ∧
      (s.api.service_instances (proj.fq_name ++ [pool_id]) = none →
        (_clear_loadbalancer_instance tenant_id pool_id s).1 =
          .error .noIdError)) := by
  constructor
  · intro pool_id vip_id pool vip hp hv hcalc0
    have hcalc : calcF s.api pool vip = .ok none := by
      rw [calc_run] at hcalc0; exact hcalc0
    rw [reconcile_noconfig hp hv hcalc]
    cases hsi : s.api.service_instances (fqOf pool pool_id) with
    | none =>
      simp [service_instance_delete, hsi, DriverState.log,
            List.any_append, ApiCall.isDeleteAttemptAt]
    | some si =>
      cases hre : s.api.si_refs_exist (fqOf pool pool_id) <;>
        simp [service_instance_delete, hsi, hre, DriverState.log,
              List.any_append, ApiCall.isDeleteAttemptAt]
  · intro tenant_id pool_id proj hpr
    cases hsi : s.api.service_instances (proj.fq_name ++ [pool_id]) with
    | none =>
      simp [_clear_loadbalancer_instance, project_read, hpr,
            service_instance_delete, hsi, DriverState.log,
            List.any_append, ApiCall.isDeleteAttemptAt]
    | some si =>
      cases hre : s.api.si_refs_exist (proj.fq_name ++ [pool_id]) <;>
        simp [_clear_loadbalancer_instance, project_read, hpr,
              service_instance_delete, hsi, hre, DriverState.log,
              List.any_append, ApiCall.isDeleteAttemptAt]

/-- Witness for C9: with no instance in the store, the dangling-vip
reconcile and the clear path both end in the not-found error. -/
theorem C9_delete_noid_propagates_witness :
    (_update_loadbalancer_instance "p1" "v1"
      { api := { api1 with
          vips := fun i => if i = "v1" then some vipN else none },
        lb_template := none, events := [] }).1 = .error .noIdError ∧
    (_clear_loadbalancer_instance "t1" "px" st1).1 = .error .noIdError := by
  constructor
  · exact (((C9_delete_noid_propagates
      { api := { api1 with
          vips := fun i => if i = "v1" then some vipN else none },
        lb_template := none, events := [] }).1 "p1" "v1" pool1 vipN
      (by decide) (by decide) rfl).2.1 (by decide))
  · exact (((C9_delete_noid_propagates st1).2 "t1" "px"
      { fq_name := ["default-domain", "demo"] } (by decide)).2 (by decide))

theorem upr_filter_siw (pool : LoadbalancerPool) (si : ServiceInstance)
    (s : DriverState) :
    ((_update_pool_ref pool si s).2.events).filter ApiCall.isSiWrite =
      s.events.filter ApiCall.isSiWrite := by
  cases h : pool.service_instance_refs with
  | none =>
    simp [_update_pool_ref, h, loadbalancer_pool_update,
          List.filter_append, ApiCall.isSiWrite]
  | some l =>
    cases l with
    | nil => simp [_update_pool_ref, h, pyIndex0]
    | cons rr rrl =>
      by_cases hu : rr.uuid = si.uuid <;>
        simp [_update_pool_ref, h, pyIndex0, hu, loadbalancer_pool_update,
              List.filter_append, ApiCall.isSiWrite]

theorem upr_filter_pu_write {pool : LoadbalancerPool} {si : ServiceInstance}
    (s : DriverState)
    (h : pool.service_instance_refs = none ∨
      ∃ rr rrl, pool.service_instance_refs = some (rr :: rrl) ∧
        rr.uuid ≠ si.uuid) :
    ((_update_pool_ref pool si s).2.events).filter ApiCall.isPoolUpdate =
      s.events.filter ApiCall.isPoolUpdate ++
        [.pool_update (pool.set_service_instance si)] := by
  rcases h with h | ⟨rr, rrl, h, hne⟩
  · simp [_update_pool_ref, h, loadbalancer_pool_update,
          List.filter_append, ApiCall.isPoolUpdate]
  · simp [_update_pool_ref, h, pyIndex0, hne, loadbalancer_pool_update,
          List.filter_append, ApiCall.isPoolUpdate]

theorem upr_filter_pu_skip {pool : LoadbalancerPool} {si : ServiceInstance}
    (s : DriverState) {rr : UuidRef} {rrl : List UuidRef}
    (h : pool.service_instance_refs = some (rr :: rrl))
    (heq : rr.uuid = si.uuid) :
    ((_update_pool_ref pool si s).2.events).filter ApiCall.isPoolUpdate =
      s.events.filter ApiCall.isPoolUpdate := by
  simp [_update_pool_ref, h, pyIndex0, heq]

/-- C5: When reconcile finds an existing service instance whose
properties differ from the freshly computed ones in exactly one of the
three fields, exactly one service-instance write is performed, an
update, and the record it pushes carries all three desired field values,
not only the drifted one. -/
theorem C5_single_field_drift_full_update
    (s : DriverState) (pool_id vip_id : String)
    (pool : LoadbalancerPool) (vip : VirtualIp)
    (r : UuidRef) (rl : List UuidRef) (vmi : VirtualMachineInterface)
    (vr : VnetRef) (vl : List VnetRef) (ir : UuidRef) (il : List UuidRef)
    (iip : InstanceIp) (addr : String) (si_obj : ServiceInstance)
    (t : ServiceTemplate) (props : ServiceInstanceType)
    (hp : s.api.pools pool_id = some pool)
    (hv : s.api.vips vip_id = some vip)
    (hr : vip.virtual_machine_interface_refs = some (r :: rl))
    (hm : s.api.vmis r.uuid = some vmi)
    (hn : vmi.virtual_network_refs = some (vr :: vl))
    (hi : vmi.instance_ip_back_refs = some (ir :: il))
    (hiip : s.api.iips ir.uuid = some iip)
    (haddr : iip.instance_ip_address = some addr)
    (hsame : s.api.subnet_network pool.loadbalancer_pool_properties.subnet_id
      = vr.uuid)
    (hprops : props =
      { right_virtual_network := some (String.intercalate ":" vr.ref_to),
        right_ip_address := some addr, left_virtual_network := none })
    (htmpl : s.lb_template = some t ∨
      (s.lb_template = none ∧ s.api.template = some t))
    (hsi : s.api.service_instances (fqOf pool pool_id) = some si_obj)
    (hdiff :
      (si_obj.service_instance_properties.right_virtual_network ≠
         props.right_virtual_network ∧
       si_obj.service_instance_properties.right_ip_address =
         props.right_ip_address ∧
       si_obj.service_instance_properties.left_virtual_network =
         props.left_virtual_network) ∨
      (si_obj.service_instance_properties.right_virtual_network =
         props.right_virtual_network ∧
       si_obj.service_instance_properties.right_ip_address ≠
         props.right_ip_address ∧
       si_obj.service_instance_properties.left_virtual_network =
         props.left_virtual_network) ∨
      (si_obj.service_instance_properties.right_virtual_network =
         props.right_virtual_network ∧
       si_obj.service_instance_properties.right_ip_address =
         props.right_ip_address ∧
       si_obj.service_instance_properties.left_virtual_network ≠
         props.left_virtual_network))
    (hev : s.events = []) :
    (_update_loadbalancer_instance pool_id vip_id s).2.events.filter
      ApiCall.isSiWrite =
      [.si_update { si_obj with service_instance_properties := props }] := by
  have hcalc : calcF s.api pool vip = .ok (some props) := by
    simp [calcF, addrF, hr, hm, hn, hi, hiip, haddr, hsame, hprops]
  have hne : si_obj.service_instance_properties ≠ props := by
    rcases hdiff with ⟨h1, _, _⟩ | ⟨_, h2, _⟩ | ⟨_, _, h3⟩ <;> intro he
    · exact h1 (by rw [he])
    · exact h2 (by rw [he])
    · exact h3 (by rw [he])
  have hdec : decide (si_obj.service_instance_properties ≠ props) = true :=
    decide_eq_true hne
  have htrf : (calcTraceF s.api pool vip).filter ApiCall.isSiWrite = [] :=
    calcTrace_filter_siw _ _ _ _
      (fun e he => (plain_not_mut he).2.2.2.2.2.2)
  rw [reconcile_success hp hv hcalc]
  rcases htmpl with htc | ⟨htn, hta⟩
  · simp only [_reconcile_instance, _get_template, htc,
               service_instance_read, hsi, update_props_spec, hdec,
               if_true, service_instance_update, DriverState.log]
    rw [upr_filter_siw]
    simp [List.filter_append, htrf, hev, ApiCall.isSiWrite]
  · simp only [_reconcile_instance, _get_template, htn,
               service_template_read, hta, LOADBALANCER_SERVICE_TEMPLATE,
               reduceIte, service_instance_read, hsi, update_props_spec,
               hdec, if_true, service_instance_update, DriverState.log]
    rw [upr_filter_siw]
    simp [List.filter_append, htrf, hev, ApiCall.isSiWrite]

/-- Witness for C5: the drifted-address scenario pushes exactly the one
full-record update. -/
theorem C5_single_field_drift_full_update_witness :
    (_update_loadbalancer_instance "p1" "v1" stDrift).2.events.filter
      ApiCall.isSiWrite = [.si_update siExisting] := by
  have h := C5_single_field_drift_full_update stDrift "p1" "v1"
    { pool1 with service_instance_refs := some [{ uuid := "si-old" }] }
    vip1 { uuid := "vmi1" } [] vmi1
    { ref_to := ["default-domain", "demo", "net-A"], uuid := "netA" } []
    { uuid := "iip1" } [] { instance_ip_address := some "10.0.0.5" }
    "10.0.0.5"
    { siExisting with
      service_instance_properties :=
        { right_virtual_network := some "default-domain:demo:net-A",
          right_ip_address := some "10.9.9.9",
          left_virtual_network := none } }
    { fq_name := LOADBALANCER_SERVICE_TEMPLATE }
    siExisting.service_instance_properties
    (by decide) (by decide) (by decide) (by decide) (by decide) (by decide)
    (by decide) (by decide) (by decide) (by decide) (Or.inl rfl)
    (by decide)
    (Or.inr (Or.inl (by refine ⟨rfl, ?_, rfl⟩; decide)))
    rfl
  exact h

/-- C7: After the service instance is resolved, found or created, a pool
update is pushed exactly when the pool has no stored service-instance
reference or the stored reference uuid differs from the resolved
instance uuid; when they already match no pool update occurs. -/
theorem C7_pool_ref_pushed_iff_stale
    (s : DriverState) (pool_id vip_id : String)
    (pool : LoadbalancerPool) (vip : VirtualIp)
    (r : UuidRef) (rl : List UuidRef) (vmi : VirtualMachineInterface)
    (vr : VnetRef) (vl : List VnetRef) (ir : UuidRef) (il : List UuidRef)
    (iip : InstanceIp) (addr : String) (t : ServiceTemplate)
    (props : ServiceInstanceType)
    (hp : s.api.pools pool_id = some pool)
    (hv : s.api.vips vip_id = some vip)
    (hr : vip.virtual_machine_interface_refs = some (r :: rl))
    (hm : s.api.vmis r.uuid = some vmi)
    (hn : vmi.virtual_network_refs = some (vr :: vl))
    (hi : vmi.instance_ip_back_refs = some (ir :: il))
    (hiip : s.api.iips ir.uuid = some iip)
    (haddr : iip.instance_ip_address = some addr)
    (hsame : s.api.subnet_network pool.loadbalancer_pool_properties.subnet_id
      = vr.uuid)
    (hprops : props =
      { right_virtual_network := some (String.intercalate ":" vr.ref_to),
        right_ip_address := some addr, left_virtual_network := none })
    (htmpl : s.lb_template = some t ∨
      (s.lb_template = none ∧ s.api.template = some t))
    (hev : s.events = []) :
    (∀ si_obj, s.api.service_instances (fqOf pool pool_id) = some si_obj →
      ((pool.service_instance_refs = none ∨
        (∃ rr rrl, pool.service_instance_refs = some (rr :: rrl) ∧
          rr.uuid ≠ si_obj.uuid)) →
        (_update_loadbalancer_instance pool_id vip_id s).2.events.filter
          ApiCall.isPoolUpdate =
          [.pool_update (pool.set_service_instance
            { si_obj with service_instance_properties := props })]) ∧
      (∀ rr rrl, pool.service_instance_refs = some (rr :: rrl) →
        rr.uuid = si_obj.uuid →
        (_update_loadbalancer_instance pool_id vip_id s).2.events.filter
          ApiCall.isPoolUpdate = [])) ∧
    (s.api.service_instances (fqOf pool pool_id) = none →
      ((pool.service_instance_refs = none ∨
        (∃ rr rrl, pool.service_instance_refs = some (rr :: rrl) ∧
          rr.uuid ≠ s.api.next_uuid)) →
        (_update_loadbalancer_instance pool_id vip_id s).2.events.filter
          ApiCall.isPoolUpdate =
          [.pool_update (pool.set_service_instance
            { fq_name := fqOf pool pool_id, uuid := s.api.next_uuid,
              parent_type := "project",
              service_instance_properties := props,
              service_template_ref :=
                some LOADBALANCER_SERVICE_TEMPLATE })]) ∧
      (∀ rr rrl, pool.service_instance_refs = some (rr :: rrl) →
        rr.uuid = s.api.next_uuid →
        (_update_loadbalancer_instance pool_id vip_id s).2.events.filter
          ApiCall.isPoolUpdate = [])) := by
  have hcalc : calcF s.api pool vip = .ok (some props) := by
    simp [calcF, addrF, hr, hm, hn, hi, hiip, haddr, hsame, hprops]
  have htrp : (calcTraceF s.api pool vip).filter ApiCall.isPoolUpdate = [] :=
    calcTrace_filter_siw _ _ _ _ (fun e he => (plain_not_mut he).2.2.1)
  rw [reconcile_success hp hv hcalc]
  obtain ⟨pre, hget, hpre⟩ : ∃ pre,
      _get_template
        { s with events := s.events ++ [.pool_read pool_id, .vip_read vip_id]
            ++ calcTraceF s.api pool vip } =
        (.ok (),
          { s with lb_template := some t,
                   events := (s.events ++
                     [.pool_read pool_id, .vip_read vip_id]
                     ++ calcTraceF s.api pool vip) ++ pre }) ∧
      pre.filter ApiCall.isPoolUpdate = [] := by
    rcases htmpl with htc | ⟨htn, hta⟩
    · refine ⟨[], ?_, rfl⟩
      simp [_get_template, htc]
    · refine ⟨[.template_read LOADBALANCER_SERVICE_TEMPLATE], ?_, rfl⟩
      simp [_get_template, htn, service_template_read, hta,
            DriverState.log, List.append_assoc]
  constructor
  · intro si_obj hsi
    have hchain :
        (_reconcile_instance (fqOf pool pool_id) props pool
          { s with events := s.events ++
              [.pool_read pool_id, .vip_read vip_id]
              ++ calcTraceF s.api pool vip }) =
        _update_pool_ref pool
          { si_obj with service_instance_properties := props }
          (if decide (si_obj.service_instance_properties ≠ props) then
            { s with lb_template := some t,
                     api := { s.api with
                       service_instances :=
                         fun f => if f = si_obj.fq_name then
                           some { si_obj with
                                  service_instance_properties := props }
                         else s.api.service_instances f },
                     events := ((s.events ++
                       [.pool_read pool_id, .vip_read vip_id]
                       ++ calcTraceF s.api pool vip) ++ pre) ++
                       [.si_read (fqOf pool pool_id)] ++
                       [.si_update
                         { si_obj with
                           service_instance_properties := props }] }
           else
            { s with lb_template := some t,
                     events := ((s.events ++
                       [.pool_read pool_id, .vip_read vip_id]
                       ++ calcTraceF s.api pool vip) ++ pre) ++
                       [.si_read (fqOf pool pool_id)] }) := by
      cases hupd : decide (si_obj.service_instance_properties ≠ props) <;>
        (simp only [_reconcile_instance]
         rw [hget]
         simp [service_instance_read, hsi, update_props_spec, hupd,
               service_instance_update, DriverState.log, List.append_assoc])
    rw [hchain]
    constructor
    · intro hcond
      have hcond2 : pool.service_instance_refs = none ∨
          ∃ rr rrl, pool.service_instance_refs = some (rr :: rrl) ∧
            rr.uuid ≠ ({ si_obj with
              service_instance_properties := props } : ServiceInstance).uuid :=
        hcond
      rw [upr_filter_pu_write _ hcond2]
      cases hupd : decide (si_obj.service_instance_properties ≠ props) <;>
        simp [hupd, List.filter_append, htrp, hpre, hev,
              ApiCall.isPoolUpdate]
    · intro rr rrl href hequ
      have hequ2 : rr.uuid = ({ si_obj with
          service_instance_properties := props } : ServiceInstance).uuid :=
        hequ
      rw [upr_filter_pu_skip _ href hequ2]
      cases hupd : decide (si_obj.service_instance_properties ≠ props) <;>
        simp [hupd, List.filter_append, htrp, hpre, hev,
              ApiCall.isPoolUpdate]
  · intro hsi
    have hchain :
        (_reconcile_instance (fqOf pool pool_id) props pool
          { s with events := s.events ++
              [.pool_read pool_id, .vip_read vip_id]
              ++ calcTraceF s.api pool vip }) =
        _update_pool_ref pool
          { fq_name := fqOf pool pool_id, uuid := s.api.next_uuid,
            parent_type := "project",
            service_instance_properties := props,
            service_template_ref := some LOADBALANCER_SERVICE_TEMPLATE }
          { s with lb_template := some t,
                   api := { s.api with
                     service_instances :=
                       fun f => if f = fqOf pool pool_id then
                         some { fq_name := fqOf pool pool_id,
                                uuid := s.api.next_uuid,
                                parent_type := "project",
                                service_instance_properties := props,
                                service_template_ref :=
                                  some LOADBALANCER_SERVICE_TEMPLATE }
                         else s.api.service_instances f },
                   events := ((s.events ++
                     [.pool_read pool_id, .vip_read vip_id]
                     ++ calcTraceF s.api pool vip) ++ pre) ++
                     [.si_read (fqOf pool pool_id)] ++
                     [.si_create
                       { fq_name := fqOf pool pool_id,
                         uuid := s.api.next_uuid,
                         parent_type := "project",
                         service_instance_properties := props,
                         service_template_ref :=
                           some LOADBALANCER_SERVICE_TEMPLATE }] } := by
      simp only [_reconcile_instance]
      rw [hget]
      simp [service_instance_read, hsi, service_instance_create,
            DriverState.log, List.append_assoc]
    rw [hchain]
    constructor
    · intro hcond
      have hcond2 : pool.service_instance_refs = none ∨
          ∃ rr rrl, pool.service_instance_refs = some (rr :: rrl) ∧
            rr.uuid ≠ ({ fq_name := fqOf pool pool_id,
                         uuid := s.api.next_uuid,
                         parent_type := "project",
                         service_instance_properties := props,
                         service_template_ref :=
                           some LOADBALANCER_SERVICE_TEMPLATE } :
                ServiceInstance).uuid := hcond
      rw [upr_filter_pu_write _ hcond2]
      simp [List.filter_append, htrp, hpre, hev, ApiCall.isPoolUpdate]
    · intro rr rrl href hequ
      have hequ2 : rr.uuid = ({ fq_name := fqOf pool pool_id,
                                uuid := s.api.next_uuid,
                                parent_type := "project",
                                service_instance_properties := props,
                                service_template_ref :=
                                  some LOADBALANCER_SERVICE_TEMPLATE } :
            ServiceInstance).uuid := hequ
      rw [upr_filter_pu_skip _ href hequ2]
      simp [List.filter_append, htrp, hpre, hev, ApiCall.isPoolUpdate]

/-- Witness for C7: first association in the fresh scenario pushes the
pool update; the settled scenario pushes none. -/
theorem C7_pool_ref_pushed_iff_stale_witness :
    (_update_loadbalancer_instance "p1" "v1" st1).2.events.filter
      ApiCall.isPoolUpdate =
      [.pool_update (pool1.set_service_instance
        { fq_name := fqOf pool1 "p1", uuid := "si-uuid-1",
          parent_type := "project",
          service_instance_properties :=
            { right_virtual_network := some "default-domain:demo:net-A",
              right_ip_address := some "10.0.0.5",
              left_virtual_network := none },
          service_template_ref := some LOADBALANCER_SERVICE_TEMPLATE })] ∧
    (_update_loadbalancer_instance "p1" "v1" stSettled).2.events.filter
      ApiCall.isPoolUpdate = [] := by
  constructor
  · have h := C7_pool_ref_pushed_iff_stale st1 "p1" "v1" pool1 vip1
      { uuid := "vmi1" } [] vmi1
      { ref_to := ["default-domain", "demo", "net-A"], uuid := "netA" } []
      { uuid := "iip1" } [] { instance_ip_address := some "10.0.0.5" }
      "10.0.0.5" { fq_name := LOADBALANCER_SERVICE_TEMPLATE }
      { right_virtual_network := some "default-domain:demo:net-A",
        right_ip_address := some "10.0.0.5", left_virtual_network := none }
      (by decide) (by decide) (by decide) (by decide) (by decide)
      (by decide) (by decide) (by decide) (by decide) (by decide)
      (Or.inr ⟨rfl, rfl⟩) rfl
    exact (h.2 (by decide)).1 (Or.inl (by decide))
  · have h := C7_pool_ref_pushed_iff_stale stSettled "p1" "v1"
      { pool1 with service_instance_refs := some [{ uuid := "si-old" }] }
      vip1 { uuid := "vmi1" } [] vmi1
      { ref_to := ["default-domain", "demo", "net-A"], uuid := "netA" } []
      { uuid := "iip1" } [] { instance_ip_address := some "10.0.0.5" }
      "10.0.0.5" { fq_name := LOADBALANCER_SERVICE_TEMPLATE }
      { right_virtual_network := some "default-domain:demo:net-A",
        right_ip_address := some "10.0.0.5", left_virtual_network := none }
      (by decide) (by decide) (by decide) (by decide) (by decide)
      (by decide) (by decide) (by decide) (by decide) (by decide)
      (Or.inl rfl) rfl
    exact ((h.1 siExisting (by decide)).2 { uuid := "si-old" } []
      (by decide) (by decide))

theorem second_call_no_writes (s' : DriverState) (pool_id vip_id : String)
    (pool : LoadbalancerPool) (vip : VirtualIp)
    (props : ServiceInstanceType) (siF : ServiceInstance)
    (t : ServiceTemplate)
    (hp : s'.api.pools pool_id = some pool)
    (hv : s'.api.vips vip_id = some vip)
    (hc : calcF s'.api pool vip = .ok (some props))
    (hlb : s'.lb_template = some t)
    (hsi : s'.api.service_instances (fqOf pool pool_id) = some siF)
    (hprops : siF.service_instance_properties = props)
    (hrefs : pool.service_instance_refs = some [] ∨
      ∃ rr rrl, pool.service_instance_refs = some (rr :: rrl) ∧
        rr.uuid = siF.uuid) :
    writesOf (_update_loadbalancer_instance pool_id vip_id s').2.events =
      writesOf s'.events := by
  have hupd : decide (siF.service_instance_properties ≠ props) = false := by
    simp [hprops]
  have htrw : (calcTraceF s'.api pool vip).filter ApiCall.isWrite = [] :=
    calcTrace_filter_siw _ _ _ _
      (fun e he => (plain_not_mut he).2.2.2.2.1)
  rw [reconcile_success hp hv hc]
  rcases hrefs with hnil | ⟨rr, rrl, hcons, hequ⟩
  · simp [_reconcile_instance, _get_template, hlb, service_instance_read,
          hsi, update_props_spec, hupd, _update_pool_ref, hnil, pyIndex0,
          DriverState.log, writesOf, List.filter_append, htrw,
          ApiCall.isWrite]
  · have hequ2 : rr.uuid = ({ siF with
        service_instance_properties := props } : ServiceInstance).uuid :=
      hequ
    simp [_reconcile_instance, _get_template, hlb, service_instance_read,
          hsi, update_props_spec, hupd, _update_pool_ref, hcons, pyIndex0,
          hequ2, DriverState.log, writesOf, List.filter_append, htrw,
          ApiCall.isWrite]

theorem c4_finish_counts (pool : LoadbalancerPool) (si2 : ServiceInstance)
    (s6 : DriverState)
    (hW : ((s6.events).filter ApiCall.isWrite).length ≤ 1)
    (hS : ((s6.events).filter ApiCall.isSiWrite).length ≤ 1)
    (hP : (s6.events).filter ApiCall.isPoolUpdate = []) :
    (writesOf (_update_pool_ref pool si2 s6).2.events).length ≤ 2 ∧
    (((_update_pool_ref pool si2 s6).2.events).filter
      ApiCall.isSiWrite).length ≤ 1 ∧
    (((_update_pool_ref pool si2 s6).2.events).filter
      ApiCall.isPoolUpdate).length ≤ 1 := by
  cases h : pool.service_instance_refs with
  | none =>
    rw [upr_refs_none h]
    simp only [writesOf, List.filter_append, List.length_append]
    refine ⟨?_, ?_, ?_⟩ <;>
      simp [ApiCall.isWrite, ApiCall.isSiWrite, ApiCall.isPoolUpdate, hP] <;>
      omega
  | some l =>
    cases l with
    | nil =>
      rw [upr_refs_nil h]
      exact ⟨le_trans hW (by omega), hS, by simp [hP]⟩
    | cons rr rrl =>
      by_cases hu : rr.uuid = si2.uuid
      · rw [upr_refs_match h hu]
        exact ⟨le_trans hW (by omega), hS, by simp [hP]⟩
      · rw [upr_refs_stale h hu]
        simp only [writesOf, List.filter_append, List.length_append]
        refine ⟨?_, ?_, ?_⟩ <;>
          simp [ApiCall.isWrite, ApiCall.isSiWrite, ApiCall.isPoolUpdate,
                hP] <;>
          omega

theorem c4_finish_second (pool : LoadbalancerPool) (si2 : ServiceInstance)
    (s6 : DriverState) (pool_id vip_id : String) (vip : VirtualIp)
    (props : ServiceInstanceType) (t : ServiceTemplate)
    (hwfp : pool.uuid = pool_id)
    (h6p : s6.api.pools pool_id = some pool)
    (h6v : s6.api.vips vip_id = some vip)
    (h6c : calcF s6.api pool vip = .ok (some props))
    (h6lb : s6.lb_template = some t)
    (h6si : s6.api.service_instances (fqOf pool pool_id) = some si2)
    (h6props : si2.service_instance_properties = props) :
    writesOf (_update_loadbalancer_instance pool_id vip_id
      { (_update_pool_ref pool si2 s6).2 with events := [] }).2.events
      = [] := by
  cases h : pool.service_instance_refs with
  | none =>
    rw [upr_refs_none h]
    have hres := second_call_no_writes
      { api := { s6.api with
          pools := fun i => if i = pool.uuid
                            then some (pool.set_service_instance si2)
                            else s6.api.pools i },
        lb_template := s6.lb_template, events := [] }
      pool_id vip_id (pool.set_service_instance si2) vip props si2 t
      (by simp [hwfp, LoadbalancerPool.set_service_instance])
      h6v
      (by
        have hcg := @calcF_congr
          { s6.api with
            pools := fun i => if i = pool.uuid
                              then some (pool.set_service_instance si2)
                              else s6.api.pools i }
          s6.api (pool.set_service_instance si2) pool
          vip rfl rfl rfl rfl rfl
        rw [hcg.1]; exact h6c)
      h6lb
      (by
        have : fqOf (pool.set_service_instance si2) pool_id =
            fqOf pool pool_id := rfl
        rw [this]; exact h6si)
      h6props
      (Or.inr ⟨{ uuid := si2.uuid }, [],
        by simp [LoadbalancerPool.set_service_instance], rfl⟩)
    simpa using hres
  | some l =>
    cases l with
    | nil =>
      rw [upr_refs_nil h]
      have hres := second_call_no_writes
        { api := s6.api, lb_template := s6.lb_template, events := [] }
        pool_id vip_id pool vip props si2 t h6p h6v h6c h6lb h6si h6props
        (Or.inl h)
      simpa using hres
    | cons rr rrl =>
      by_cases hu : rr.uuid = si2.uuid
      · rw [upr_refs_match h hu]
        have hres := second_call_no_writes
          { api := s6.api, lb_template := s6.lb_template, events := [] }
          pool_id vip_id pool vip props si2 t h6p h6v h6c h6lb h6si h6props
          (Or.inr ⟨rr, rrl, h, hu⟩)
        simpa using hres
      · rw [upr_refs_stale h hu]
        have hres := second_call_no_writes
          { api := { s6.api with
              pools := fun i => if i = pool.uuid
                                then some (pool.set_service_instance si2)
                                else s6.api.pools i },
            lb_template := s6.lb_template, events := [] }
          pool_id vip_id (pool.set_service_instance si2) vip props si2 t
          (by simp [hwfp, LoadbalancerPool.set_service_instance])
          h6v
          (by
            have hcg := @calcF_congr
              { s6.api with
                pools := fun i => if i = pool.uuid
                                  then some (pool.set_service_instance si2)
                                  else s6.api.pools i }
              s6.api (pool.set_service_instance si2) pool
              vip rfl rfl rfl rfl rfl
            rw [hcg.1]; exact h6c)
          h6lb
          (by
            have : fqOf (pool.set_service_instance si2) pool_id =
                fqOf pool pool_id := rfl
            rw [this]; exact h6si)
          h6props
          (Or.inr ⟨{ uuid := si2.uuid }, [],
            by simp [LoadbalancerPool.set_service_instance], rfl⟩)
        simpa using hres

theorem upr_filter_gen (pool : LoadbalancerPool) (si : ServiceInstance)
    (s : DriverState) (p : ApiCall → Bool)
    (hpu : ∀ q, p (.pool_update q) = false) :
    ((_update_pool_ref pool si s).2.events).filter p =
      s.events.filter p := by
  cases h : pool.service_instance_refs with
  | none =>
    simp [_update_pool_ref, h, loadbalancer_pool_update,
          List.filter_append, hpu]
  | some l =>
    cases l with
    | nil => simp [_update_pool_ref, h, pyIndex0]
    | cons rr rrl =>
      by_cases hu : rr.uuid = si.uuid <;>
        simp [_update_pool_ref, h, pyIndex0, hu, loadbalancer_pool_update,
              List.filter_append, hpu]

theorem c4_proceed_aux (s : DriverState) (pool_id vip_id : String)
    (pool : LoadbalancerPool) (vip : VirtualIp)
    (props : ServiceInstanceType) (t : ServiceTemplate)
    (hwfp : pool.uuid = pool_id)
    (hwfSi : ∀ f si, s.api.service_instances f = some si → si.fq_name = f)
    (hp : s.api.pools pool_id = some pool)
    (hv : s.api.vips vip_id = some vip)
    (hc : calcF s.api pool vip = .ok (some props))
    (hTT : s.lb_template = some t ∨
      (s.lb_template = none ∧ s.api.template = some t))
    (hev : s.events = []) :
    (writesOf
      (_update_loadbalancer_instance pool_id vip_id s).2.events).length ≤ 2 ∧
    (((_update_loadbalancer_instance pool_id vip_id s).2.events).filter
      ApiCall.isSiWrite).length ≤ 1 ∧
    (((_update_loadbalancer_instance pool_id vip_id s).2.events).filter
      ApiCall.isPoolUpdate).length ≤ 1 ∧
    writesOf (_update_loadbalancer_instance pool_id vip_id
      { (_update_loadbalancer_instance pool_id vip_id s).2 with
        events := [] }).2.events = [] := by
  have htrW : (calcTraceF s.api pool vip).filter ApiCall.isWrite = [] :=
    calcTrace_filter_siw _ _ _ _
      (fun e he => (plain_not_mut he).2.2.2.2.1)
  have htrS : (calcTraceF s.api pool vip).filter ApiCall.isSiWrite = [] :=
    calcTrace_filter_siw _ _ _ _
      (fun e he => (plain_not_mut he).2.2.2.2.2.2)
  have htrP : (calcTraceF s.api pool vip).filter ApiCall.isPoolUpdate = [] :=
    calcTrace_filter_siw _ _ _ _
      (fun e he => (plain_not_mut he).2.2.1)
  rw [reconcile_success hp hv hc]
  obtain ⟨pre, hget, hpW, hpS, hpP⟩ : ∃ pre,
      _get_template
        { s with events := s.events ++ [.pool_read pool_id, .vip_read vip_id]
            ++ calcTraceF s.api pool vip } =
        (.ok (),
          { s with lb_template := some t,
                   events := (s.events ++
                     [.pool_read pool_id, .vip_read vip_id]
                     ++ calcTraceF s.api pool vip) ++ pre }) ∧
      pre.filter ApiCall.isWrite = [] ∧
      pre.filter ApiCall.isSiWrite = [] ∧
      pre.filter ApiCall.isPoolUpdate = [] := by
    rcases hTT with htc | ⟨htn, hta⟩
    · exact ⟨[], by simp [_get_template, htc], rfl, rfl, rfl⟩
    · refine ⟨[.template_read LOADBALANCER_SERVICE_TEMPLATE], ?_,
        rfl, rfl, rfl⟩
      simp [_get_template, htn, service_template_read, hta,
            DriverState.log, List.append_assoc]
  cases hsi : s.api.service_instances (fqOf pool pool_id) with
  | none =>
    simp only [_reconcile_instance]
    rw [hget]
    simp only [service_instance_read, hsi, service_instance_create,
               DriverState.log]
    refine ⟨(c4_finish_counts _ _ _ ?_ ?_ ?_).1,
            (c4_finish_counts _ _ _ ?_ ?_ ?_).2.1,
            (c4_finish_counts _ _ _ ?_ ?_ ?_).2.2,
            c4_finish_second _ _ _ pool_id vip_id vip props t hwfp
              ?_ ?_ ?_ ?_ ?_ ?_⟩ <;>
      first
      | exact hc
      | (exact ((@calcF_congr _ _ pool pool vip
          rfl rfl rfl rfl rfl).1).trans hc)
      | (simp [hp, hv, hev, DriverState.log, List.filter_append,
               htrW, htrS, htrP, hpW, hpS, hpP, ApiCall.isWrite,
               ApiCall.isSiWrite, ApiCall.isPoolUpdate])
  | some si_obj =>
    have hfq : si_obj.fq_name = fqOf pool pool_id := hwfSi _ _ hsi
    cases hupd : decide (si_obj.service_instance_properties ≠ props) with
    | false =>
      have hpe : si_obj.service_instance_properties = props := by
        simpa using of_decide_eq_false hupd
      have hsieq : ({ si_obj with
          service_instance_properties := props } : ServiceInstance)
          = si_obj := by
        rw [← hpe]
      simp only [_reconcile_instance]
      rw [hget]
      simp only [service_instance_read, hsi, update_props_spec, hupd,
                 Bool.false_eq_true, if_false]
      refine ⟨(c4_finish_counts _ _ _ ?_ ?_ ?_).1,
              (c4_finish_counts _ _ _ ?_ ?_ ?_).2.1,
              (c4_finish_counts _ _ _ ?_ ?_ ?_).2.2,
              c4_finish_second _ _ _ pool_id vip_id vip props t hwfp
                ?_ ?_ ?_ ?_ ?_ ?_⟩ <;>
        first
        | exact hc
        | (rw [hsieq]; exact hsi)
        | (simp [hp, hv, hev, DriverState.log, List.filter_append,
                 htrW, htrS, htrP, hpW, hpS, hpP, ApiCall.isWrite,
                 ApiCall.isSiWrite, ApiCall.isPoolUpdate])
    | true =>
      simp only [_reconcile_instance]
      rw [hget]
      simp only [service_instance_read, hsi, update_props_spec, hupd,
                 if_true, service_instance_update, DriverState.log]
      refine ⟨(c4_finish_counts _ _ _ ?_ ?_ ?_).1,
              (c4_finish_counts _ _ _ ?_ ?_ ?_).2.1,
              (c4_finish_counts _ _ _ ?_ ?_ ?_).2.2,
              c4_finish_second _ _ _ pool_id vip_id vip props t hwfp
                ?_ ?_ ?_ ?_ ?_ ?_⟩ <;>
        first
        | exact hc
        | (exact ((@calcF_congr _ _ pool pool vip
            rfl rfl rfl rfl rfl).1).trans hc)
        | (simp [hp, hv, hfq, hev, DriverState.log, List.filter_append,
                 htrW, htrS, htrP, hpW, hpS, hpP, ApiCall.isWrite,
                 ApiCall.isSiWrite, ApiCall.isPoolUpdate])

/-- C4 counterexample: on the fresh single-network scenario the first
reconcile call performs two remote writes, the service-instance create
and the pool update, so the first call is not bounded by one write. -/
theorem C4_first_call_two_writes :
    (writesOf
      (_update_loadbalancer_instance "p1" "v1" st1).2.events).length = 2 := by
  decide

/-- C4 (amended): when reconcile finds an existing service instance
whose three property fields all equal the freshly computed values, no
service-instance update is written; and invoking reconcile twice with
unchanged remote state produces at most two writes on the first call
(at most one service-instance create or update and at most one pool
update) and zero writes on the second. -/
theorem C4_idempotence_amended (s : DriverState) (pool_id vip_id : String)
    (hwfPool : ∀ i p, s.api.pools i = some p → p.uuid = i)
    (hwfSi : ∀ f si, s.api.service_instances f = some si → si.fq_name = f)
    (hev : s.events = []) :
    (∀ pool vip props si_obj t,
      s.api.pools pool_id = some pool →
      s.api.vips vip_id = some vip →
      (_calculate_instance_properties pool vip s).1 = .ok (some props) →
      s.api.service_instances (fqOf pool pool_id) = some si_obj →
      si_obj.service_instance_properties = props →
      (s.lb_template = some t ∨
        (s.lb_template = none ∧ s.api.template = some t)) →
      ((_update_loadbalancer_instance pool_id vip_id s).2.events.filter
        ApiCall.isSiUpdate) = []) ∧
    ((writesOf
       (_update_loadbalancer_instance pool_id vip_id s).2.events).length
       ≤ 2 ∧
     (((_update_loadbalancer_instance pool_id vip_id s).2.events).filter
       ApiCall.isSiWrite).length ≤ 1 ∧
     (((_update_loadbalancer_instance pool_id vip_id s).2.events).filter
       ApiCall.isPoolUpdate).length ≤ 1 ∧
     writesOf (_update_loadbalancer_instance pool_id vip_id
       { (_update_loadbalancer_instance pool_id vip_id s).2 with
         events := [] }).2.events = []) := by
  constructor
  · intro pool vip props si_obj t hp hv hc0 hsi hprops htmpl
    have hc : calcF s.api pool vip = .ok (some props) := by
      rw [calc_run] at hc0; exact hc0
    have hupd : decide (si_obj.service_instance_properties ≠ props)
        = false := by simp [hprops]
    have htrU : (calcTraceF s.api pool vip).filter ApiCall.isSiUpdate
        = [] :=
      calcTrace_filter_siw _ _ _ _ (fun e he => (plain_not_mut he).2.1)
    rw [reconcile_success hp hv hc]
    obtain ⟨pre, hget, hpU⟩ : ∃ pre,
        _get_template
          { s with events := s.events ++
              [.pool_read pool_id, .vip_read vip_id]
              ++ calcTraceF s.api pool vip } =
          (.ok (),
            { s with lb_template := some t,
                     events := (s.events ++
                       [.pool_read pool_id, .vip_read vip_id]
                       ++ calcTraceF s.api pool vip) ++ pre }) ∧
        pre.filter ApiCall.isSiUpdate = [] := by
      rcases htmpl with htc | ⟨htn, hta⟩
      · exact ⟨[], by simp [_get_template, htc], rfl⟩
      · refine ⟨[.template_read LOADBALANCER_SERVICE_TEMPLATE], ?_, rfl⟩
        simp [_get_template, htn, service_template_read, hta,
              DriverState.log, List.append_assoc]
    simp only [_reconcile_instance]
    rw [hget]
    simp only [service_instance_read, hsi, update_props_spec, hupd,
               Bool.false_eq_true, if_false]
    rw [upr_filter_gen _ _ _ _ (fun q => rfl)]
    simp [hev, DriverState.log, List.filter_append, htrU, hpU,
          ApiCall.isSiUpdate]
  · cases hp : s.api.pools pool_id with
    | none =>
      simp [_update_loadbalancer_instance, loadbalancer_pool_read, hp,
            DriverState.log, writesOf, hev, ApiCall.isWrite,
            ApiCall.isSiWrite, ApiCall.isPoolUpdate]
    | some pool =>
      cases hv : s.api.vips vip_id with
      | none =>
        simp [_update_loadbalancer_instance, loadbalancer_pool_read, hp,
              virtual_ip_read, hv, DriverState.log, writesOf, hev,
              ApiCall.isWrite, ApiCall.isSiWrite, ApiCall.isPoolUpdate]
      | some vip =>
        have htrW : (calcTraceF s.api pool vip).filter ApiCall.isWrite
            = [] := calcTrace_filter_siw _ _ _ _
          (fun e he => (plain_not_mut he).2.2.2.2.1)
        have htrS : (calcTraceF s.api pool vip).filter ApiCall.isSiWrite
            = [] := calcTrace_filter_siw _ _ _ _
          (fun e he => (plain_not_mut he).2.2.2.2.2.2)
        have htrP : (calcTraceF s.api pool vip).filter ApiCall.isPoolUpdate
            = [] := calcTrace_filter_siw _ _ _ _
          (fun e he => (plain_not_mut he).2.2.1)
        have hplm : ∀ a ∈ calcTraceF s.api pool vip,
            a.isPlainRead = true := by
          have h := calcTrace_plain s.api pool vip
          rw [List.all_eq_true] at h
          exact h
        have htrWm : ∀ a ∈ calcTraceF s.api pool vip,
            a.isWrite = false :=
          fun a ha => (plain_not_mut (hplm a ha)).2.2.2.2.1
        have htrSm : ∀ a ∈ calcTraceF s.api pool vip,
            a.isSiWrite = false :=
          fun a ha => (plain_not_mut (hplm a ha)).2.2.2.2.2.2
        have htrPm : ∀ a ∈ calcTraceF s.api pool vip,
            a.isPoolUpdate = false :=
          fun a ha => (plain_not_mut (hplm a ha)).2.2.1
        cases hc : calcF s.api pool vip with
        | error e =>
          rw [reconcile_error hp hv hc]
          refine ⟨?_, ?_, ?_, ?_⟩
          · simp [writesOf, hev, List.filter_append, htrW, htrWm,
                  ApiCall.isWrite]
          · simp [hev, List.filter_append, htrS, htrSm, ApiCall.isSiWrite]
          · simp [hev, List.filter_append, htrP, htrPm,
                  ApiCall.isPoolUpdate]
          · rw [@reconcile_error
              { api := s.api, lb_template := s.lb_template, events := [] }
              pool_id vip_id pool vip e hp hv hc]
            simp [writesOf, List.filter_append, htrW, htrWm,
                  ApiCall.isWrite]
        | ok o =>
          cases o with
          | none =>
            rw [reconcile_noconfig hp hv hc]
            cases hsi : s.api.service_instances (fqOf pool pool_id) with
            | none =>
              have hsiR : s.api.service_instances
                  (pool.fq_name.dropLast ++ [pool_id]) = none := hsi
              simp only [service_instance_delete, hsi]
              refine ⟨?_, ?_, ?_, ?_⟩
              · simp [writesOf, hev, DriverState.log, List.filter_append,
                      htrW, htrWm, ApiCall.isWrite]
              · simp [hev, DriverState.log, List.filter_append, htrS,
                      htrSm, ApiCall.isSiWrite]
              · simp [hev, DriverState.log, List.filter_append, htrP,
                      htrPm, ApiCall.isPoolUpdate]
              · simp [_update_loadbalancer_instance,
                      loadbalancer_pool_read, virtual_ip_read, hp, hv,
                      calc_run, hc, service_instance_delete, hsiR,
                      DriverState.log, writesOf, List.filter_append, htrW,
                      htrWm, ApiCall.isWrite]
            | some si =>
              cases hre : s.api.si_refs_exist (fqOf pool pool_id) with
              | true =>
                have hsiR : s.api.service_instances
                    (pool.fq_name.dropLast ++ [pool_id]) = some si := hsi
                have hreR : s.api.si_refs_exist
                    (pool.fq_name.dropLast ++ [pool_id]) = true := hre
                simp only [service_instance_delete, hsi, hre, if_true]
                refine ⟨?_, ?_, ?_, ?_⟩
                · simp [writesOf, hev, DriverState.log,
                        List.filter_append, htrW, htrWm, ApiCall.isWrite]
                · simp [hev, DriverState.log, List.filter_append, htrS,
                        htrSm, ApiCall.isSiWrite]
                · simp [hev, DriverState.log, List.filter_append, htrP,
                        htrPm, ApiCall.isPoolUpdate]
                · simp [_update_loadbalancer_instance,
                        loadbalancer_pool_read, virtual_ip_read, hp, hv,
                        calc_run, hc, service_instance_delete, hsiR, hreR,
                        DriverState.log, writesOf, List.filter_append,
                        htrW, htrWm, ApiCall.isWrite]
              | false =>
                have hcg := @calcF_congr
                  { s.api with service_instances :=
                      fun f => if f = pool.fq_name.dropLast ++ [pool_id]
                               then none
                               else s.api.service_instances f }
                  s.api pool pool vip rfl rfl rfl rfl rfl
                have hc2 : calcF
                    { s.api with service_instances :=
                        fun f => if f = pool.fq_name.dropLast ++ [pool_id]
                                 then none
                                 else s.api.service_instances f }
                    pool vip = .ok none := by
                  rw [hcg.1]; exact hc
                have hct2 := hcg.2
                simp only [service_instance_delete, hsi, hre,
                           Bool.false_eq_true, if_false]
                refine ⟨?_, ?_, ?_, ?_⟩
                · simp [writesOf, hev, DriverState.log,
                        List.filter_append, htrW, htrWm, ApiCall.isWrite]
                · simp [hev, DriverState.log, List.filter_append, htrS,
                        htrSm, ApiCall.isSiWrite]
                · simp [hev, DriverState.log, List.filter_append, htrP,
                        htrPm, ApiCall.isPoolUpdate]
                · simp [_update_loadbalancer_instance,
                        loadbalancer_pool_read, virtual_ip_read, hp, hv,
                        calc_run, hc2, hct2, fqOf, service_instance_delete,
                        DriverState.log, writesOf, List.filter_append,
                        htrW, htrWm, ApiCall.isWrite]
          | some props =>
            cases hlb : s.lb_template with
            | some t =>
              exact (c4_proceed_aux s pool_id vip_id pool vip props t
                (hwfPool _ _ hp) hwfSi hp hv hc (Or.inl hlb) hev)
            | none =>
              cases hta : s.api.template with
              | some t =>
                exact (c4_proceed_aux s pool_id vip_id pool vip props t
                  (hwfPool _ _ hp) hwfSi hp hv hc (Or.inr ⟨hlb, hta⟩) hev)
              | none =>
                rw [reconcile_success hp hv hc]
                refine ⟨?_, ?_, ?_, ?_⟩
                · simp [_reconcile_instance, _get_template, hlb,
                        service_template_read, hta, DriverState.log,
                        writesOf, hev, List.filter_append, htrW, htrWm,
                        ApiCall.isWrite]
                · simp [_reconcile_instance, _get_template, hlb,
                        service_template_read, hta, DriverState.log, hev,
                        List.filter_append, htrS, htrSm,
                        ApiCall.isSiWrite]
                · simp [_reconcile_instance, _get_template, hlb,
                        service_template_read, hta, DriverState.log, hev,
                        List.filter_append, htrP, htrPm,
                        ApiCall.isPoolUpdate]
                · simp [_reconcile_instance, _get_template, hlb,
                        service_template_read, hta,
                        _update_loadbalancer_instance,
                        loadbalancer_pool_read, virtual_ip_read, hp, hv,
                        calc_run, hc, DriverState.log, writesOf,
                        List.filter_append, htrW, htrWm,
                        ApiCall.isWrite]

/-- Witness for the amended C4 on the fresh scenario: at most two writes
on the first call and none on the second. -/
theorem C4_idempotence_amended_witness :
    (writesOf
      (_update_loadbalancer_instance "p1" "v1" st1).2.events).length ≤ 2 ∧
    writesOf (_update_loadbalancer_instance "p1" "v1"
      { (_update_loadbalancer_instance "p1" "v1" st1).2 with
        events := [] }).2.events = [] := by
  have h := C4_idempotence_amended st1 "p1" "v1"
    (by
      intro i p hq
      by_cases hi : i = "p1"
      · simp [st1, api1, emptyApi, hi] at hq
        simp [← hq, pool1, hi]
      · simp [st1, api1, emptyApi, hi] at hq)
    (by
      intro f si hq
      simp [st1, api1, emptyApi] at hq)
    rfl
  exact ⟨h.2.1, h.2.2.2.2⟩

end ContrailLB
